import Mathlib

/-!
Bitacora de campo (plantas).

A shallow embedding of `bitacora.cpp`: the four plant classes derived from
`Planta`, the container `Bitacora` with `agregar` and `mostrarFiltrado`, and
the text these methods write to `std::cout`.

Conventions of the embedding.

* Virtual dispatch over the four subclasses of `Planta` is a four-constructor
  inductive type; the overrides of `getTipoID` and `mostrarDetalles` are the
  branches of one function each.
* `std::cout` is the list of the texts written so far, one entry for each
  output statement (`cout << a << b << ...;`); the character stream is the
  concatenation of the entries. `endl` is the line break.
* `int` values are integers; the loop counter of `mostrarFiltrado` is a
  natural number, exact while the log holds fewer than `2^31` records.
* The text that `operator<<` writes for a `double` is library code, taken as
  the parameter `fmtDouble`.
* The inert `FichaTecnica` pointer of `Planta` has no behaviour and is left out.
* `std::cin` is the list of the whitespace-separated tokens not yet read,
  with the failure flag of the stream. The program never clears the flag, so
  once it is set every later extraction leaves its variable as it was. The
  extraction of an `int` is the decimal one of the library: a sign, digits,
  the rest of the token left in the stream; no digit stores 0 and sets the
  flag, a value outside the 32-bit `int` stores `INT_MAX` or `INT_MIN` and
  sets the flag, the end of the input sets the flag and stores nothing. What a
  failed stream still holds is never read; the embedding leaves it in place.
* What the library does with a token read as a `double`, and the values that
  the locals declared without an initial value (`med`, `t`, `esp`, `alt`,
  `filtro`) hold when an extraction stores nothing, are the parameters
  gathered in `Plataforma`.
* The loops of the shell take the number of rounds they may run; `none` is a
  loop that did not end within them.
-/

namespace BitacoraCampo

/-- A `double`, kept as its 64-bit pattern; the program only stores and prints it. -/
structure Double where
  bits : Nat
deriving DecidableEq, Repr

/-- The class `Planta` with its four subclasses: the members `nombreComun` and
`climaIdeal` of the base class, and the one member each subclass adds. -/
inductive Planta where
  | Hierba (nombreComun climaIdeal : String) (esMedicinal : Bool)
  | Mata (nombreComun climaIdeal : String) (cantidadTallos : Int)
  | Arbusto (nombreComun climaIdeal : String) (tieneEspinas : Bool)
  | Arbol (nombreComun climaIdeal : String) (altura : Double)
deriving DecidableEq, Repr

namespace Planta

/-- The member `nombreComun` (also `Planta::getNombre`). -/
def getNombre : Planta → String
  | Hierba n _ _ => n
  | Mata n _ _ => n
  | Arbusto n _ _ => n
  | Arbol n _ _ => n

/-- The member `climaIdeal`. -/
def climaIdeal : Planta → String
  | Hierba _ c _ => c
  | Mata _ c _ => c
  | Arbusto _ c _ => c
  | Arbol _ c _ => c

/-- The four overrides of `getTipoID`. -/
def getTipoID : Planta → Int
  | Hierba _ _ _ => 1
  | Mata _ _ _ => 2
  | Arbusto _ _ _ => 3
  | Arbol _ _ _ => 4

/-- The four overrides of `mostrarDetalles(int i)`: the text of the one output
statement each of them runs. -/
def mostrarDetalles (fmtDouble : Double → String) : Planta → Int → String
  | Hierba nombreComun climaIdeal esMedicinal, i =>
    let uso := if esMedicinal = true then "Medicinal" else "Decorativa"
    toString i ++ ". [HIERBA] " ++ nombreComun ++ " [Clima: " ++ climaIdeal ++ "] " ++ "("
      ++ uso ++ ")" ++ "\n"
  | Mata nombreComun climaIdeal cantidadTallos, i =>
    toString i ++ ". [MATA] " ++ nombreComun ++ " [Clima: " ++ climaIdeal ++ "] " ++ "(Tallos: "
      ++ toString cantidadTallos ++ ")" ++ "\n"
  | Arbusto nombreComun climaIdeal tieneEspinas, i =>
    let tacto := if tieneEspinas = true then "Con Espinas" else "Suave"
    toString i ++ ". [ARBUSTO] " ++ nombreComun ++ " [Clima: " ++ climaIdeal ++ "] " ++ "("
      ++ tacto ++ ")" ++ "\n"
  | Arbol nombreComun climaIdeal altura, i =>
    toString i ++ ". [ARBOL] " ++ nombreComun ++ " [Clima: " ++ climaIdeal ++ "] " ++ "("
      ++ fmtDouble altura ++ " m)" ++ "\n"

end Planta

/-- The stream `std::cout`: the texts written so far, oldest first. -/
abbrev Cout := List String

/-- The class `Bitacora`: its one member, the vector `coleccion`. -/
structure Bitacora where
  coleccion : List Planta
deriving DecidableEq, Repr

namespace Bitacora

/-- The text `agregar` writes. -/
def msgRegistrada : String := "--- La planta se ha registrado :).\n"

/-- The text `mostrarFiltrado` writes for an empty `coleccion`. -/
def msgVacia : String := "\nLa bitacora esta vacia.\n"

/-- The text `mostrarFiltrado` writes before the loop. -/
def msgEncabezado : String := "\n=== LISTADO DE PLANTAS ===\n"

/-- The text `mostrarFiltrado` writes when `hayResultados` stayed false. -/
def msgSinResultados : String := "Aun no has registrado ninguna planta aqui :)\n"

/-- The text `mostrarFiltrado` writes last. -/
def msgPie : String := "==========================\n"

/-- The method `agregar`: `push_back` on `coleccion`, then one output statement. -/
def agregar (b : Bitacora) (p : Planta) (cout : Cout) : Bitacora × Cout :=
  ({ b with coleccion := b.coleccion ++ [p] }, cout ++ [msgRegistrada])

/-- The `for` loop of `mostrarFiltrado`, from counter `i` on, with `pasos`
iterations left to run: the state is `hayResultados`, the log and `cout`. -/
def mostrarFiltradoBucle (fmtDouble : Double → String) (categoria : Int) :
    Nat → Nat → Bool → Bitacora → Cout → Bool × Bitacora × Cout
  | 0, _, hayResultados, b, cout => (hayResultados, b, cout)
  | pasos + 1, i, hayResultados, b, cout =>
    if h : i < b.coleccion.length then
      if categoria = 0 ∨ (b.coleccion.get ⟨i, h⟩).getTipoID = categoria then
        mostrarFiltradoBucle fmtDouble categoria pasos (i + 1) true b
          (cout ++ [(b.coleccion.get ⟨i, h⟩).mostrarDetalles fmtDouble ((i : Int) + 1)])
      else
        mostrarFiltradoBucle fmtDouble categoria pasos (i + 1) hayResultados b cout
    else (hayResultados, b, cout)

/-- The method `mostrarFiltrado(int categoria)`; the loop gets one iteration
for each element of `coleccion`, which is all it can run. -/
def mostrarFiltrado (fmtDouble : Double → String) (b : Bitacora) (categoria : Int)
    (cout : Cout) : Bitacora × Cout :=
  if b.coleccion.isEmpty then
    (b, cout ++ [msgVacia])
  else
    let cout1 := cout ++ [msgEncabezado]
    let (hayResultados, b2, cout2) :=
      mostrarFiltradoBucle fmtDouble categoria b.coleccion.length 0 false b cout1
    let cout3 := if hayResultados = false then cout2 ++ [msgSinResultados] else cout2
    (b2, cout3 ++ [msgPie])

/-- The record lines `mostrarFiltrado` owes for the records `resto` that stand
at the positions `i`, `i + 1`, ... of the log. -/
def lineasDesde (fmtDouble : Double → String) (categoria : Int) :
    Nat → List Planta → List String
  | _, [] => []
  | i, p :: resto =>
    if categoria = 0 ∨ p.getTipoID = categoria then
      p.mostrarDetalles fmtDouble ((i : Int) + 1) :: lineasDesde fmtDouble categoria (i + 1) resto
    else lineasDesde fmtDouble categoria (i + 1) resto

/-- The record lines the specification asks of `listFiltered(c)` for a
category `c`: the records whose `categoryTag` is `c`, in insertion order, each
rendered with its 1-based position in the whole sequence. -/
def lineasDeCategoria (fmtDouble : Double → String) (c : Int) (l : List Planta) :
    List String :=
  (l.enum.filter (fun ip => decide (ip.2.getTipoID = c))).map
    (fun ip => ip.2.mostrarDetalles fmtDouble ((ip.1 : Int) + 1))

/-- The record lines the specification asks of `listFiltered(0)`: every
record, in insertion order, rendered with its 1-based position. -/
def lineasDeTodas (fmtDouble : Double → String) (l : List Planta) : List String :=
  l.enum.map (fun ip => ip.2.mostrarDetalles fmtDouble ((ip.1 : Int) + 1))

/-- The line the specification asks of `render(index)`:
`<index>. [<LABEL>] <commonName> [Clima: <idealClimate>] (<detail>)`, the index
in decimal, closed by one line break. -/
def lineaDeRegistro (i : Int) (etiqueta nombre clima detalle : String) : String :=
  toString i ++ ". [" ++ etiqueta ++ "] " ++ nombre ++ " [Clima: " ++ clima ++ "] (" ++ detalle
    ++ ")" ++ "\n"

/-- The lines of a text that hold at least one character, the line break
being the separator. -/
def lineasConTexto (s : String) : List String :=
  ((s.data.splitOn '\n').filter (fun l => !l.isEmpty)).map String.mk

/-- The record lines of a listing with the integer category `c`, 0 standing
for every record: the records that pass the test of the loop, in insertion
order, each rendered with its 1-based position in the whole sequence. -/
def lineasListado (fmtDouble : Double → String) (c : Int) (l : List Planta) : List String :=
  (l.enum.filter (fun ip => decide (c = 0 ∨ ip.2.getTipoID = c))).map
    (fun ip => ip.2.mostrarDetalles fmtDouble ((ip.1 : Int) + 1))

/-- The record lines a call of `mostrarFiltrado` writes: what it adds to an
empty `cout`, the four fixed messages left aside. -/
def lineasEmitidas (fmtDouble : Double → String) (b : Bitacora) (c : Int) : List String :=
  (mostrarFiltrado fmtDouble b c []).2.filter
    (fun s => decide (s ∉ [msgVacia, msgEncabezado, msgSinResultados, msgPie]))

end Bitacora

/-- The largest value of the 32-bit `int`. -/
def INT_MAX : Int := 2147483647

/-- The least value of the 32-bit `int`. -/
def INT_MIN : Int := -2147483648

/-- The stream `std::cin`: the tokens still to be read, next one first, and
the failure flag. -/
structure Cin where
  tokens : List String
  falla : Bool
deriving DecidableEq, Repr

/-- The sign that may open the text of an `int`: whether it is a minus, and
the characters after it. -/
def quitarSigno : List Char → Bool × List Char
  | '-' :: cs => (true, cs)
  | '+' :: cs => (false, cs)
  | cs => (false, cs)

/-- The number that a run of decimal digits writes. -/
def valorDigitos (digitos : List Char) : Nat :=
  digitos.foldl (fun acc c => 10 * acc + (c.toNat - 48)) 0

/-- The decimal integer at the head of a token, as the library reads it for
`cin >> x` with an `int x`: an optional sign, then digits, at least one; the
result is the value and the rest of the token, `none` without a digit. -/
def analizarInt (tok : String) : Option (Int × String) :=
  let signo := quitarSigno tok.data
  let digitos := signo.2.takeWhile Char.isDigit
  let sobra := signo.2.dropWhile Char.isDigit
  if digitos.isEmpty then none
  else
    some (if signo.1 then -(valorDigitos digitos : Int) else (valorDigitos digitos : Int),
      String.mk sobra)

/-- The value an `int` takes from a number read: the number itself within
the range of `int`, the nearest bound outside. -/
def acotar (v : Int) : Int :=
  if v > INT_MAX then INT_MAX else if v < INT_MIN then INT_MIN else v

/-- The tokens left after an extraction that stopped inside a token: the rest
of that token, when there is one, comes first. -/
def devolver (sobra : String) (resto : List String) : List String :=
  if sobra = "" then resto else sobra :: resto

/-- The extraction `cin >> x` for an `int x` holding `x`: the value `x` holds
afterwards and the stream. -/
def leerInt (cin : Cin) (x : Int) : Int × Cin :=
  if cin.falla then (x, cin)
  else
    match cin.tokens with
    | [] => (x, { cin with falla := true })
    | tok :: resto =>
      match analizarInt tok with
      | none => (0, { cin with falla := true })
      | some (v, sobra) =>
        if v > INT_MAX then (INT_MAX, ⟨devolver sobra resto, true⟩)
        else if v < INT_MIN then (INT_MIN, ⟨devolver sobra resto, true⟩)
        else (v, ⟨devolver sobra resto, false⟩)

/-- The extraction `cin >> x` for a `string x` holding `x`: a whole token. -/
def leerTexto (cin : Cin) (x : String) : String × Cin :=
  if cin.falla then (x, cin)
  else
    match cin.tokens with
    | [] => (x, { cin with falla := true })
    | tok :: resto => (tok, ⟨resto, false⟩)

/-- What the program takes from its platform: `analizarDouble` is the library
reading a token for `cin >> x` with a `double x`, giving the value stored and,
when the extraction succeeds, the rest of the token; the other fields are the
values the locals declared without an initial value hold at first. -/
structure Plataforma where
  analizarDouble : String → Double × Option String
  medInicial : Int
  tInicial : Int
  espInicial : Int
  altInicial : Double
  filtroInicial : Int

/-- The extraction `cin >> x` for a `double x` holding `x`. -/
def leerDouble (pl : Plataforma) (cin : Cin) (x : Double) : Double × Cin :=
  if cin.falla then (x, cin)
  else
    match cin.tokens with
    | [] => (x, { cin with falla := true })
    | tok :: resto =>
      match pl.analizarDouble tok with
      | (d, none) => (d, { cin with falla := true })
      | (d, some sobra) => (d, ⟨devolver sobra resto, false⟩)

namespace Explorador

/-- The three output statements that open each round of the `do ... while` of
`registrar`. -/
def msgsSeleccion : List String :=
  ["\n--- REGISTRAR PLANTA ---\n", "1. Hierba | 2. Mata | 3. Arbusto | 4. Arbol\n", "Selecciona: "]

/-- The text `registrar` writes for a selection outside 1..4. -/
def msgOpcionIncorrecta : String := ">> Opcion incorrecta\n"

/-- The `do ... while (tipo < 1 || tipo > 4)` loop of `registrar`, with `pasos`
rounds allowed and `tipo` as it stands: each round writes the three prompts
and reads `tipo`; the result is the accepted `tipo`. -/
def registrarSeleccion : Nat → Int → Cin → Cout → Option (Int × Cin × Cout)
  | 0, _, _, _ => none
  | pasos + 1, tipo, cin, cout =>
    let cout1 := cout ++ msgsSeleccion
    let (tipo1, cin1) := leerInt cin tipo
    if tipo1 < 1 ∨ tipo1 > 4 then
      registrarSeleccion pasos tipo1 cin1 (cout1 ++ [msgOpcionIncorrecta])
    else some (tipo1, cin1, cout1)

/-- The `switch (tipo)` of `registrar`: the prompt and the extraction of the one
extra member, and the object built; `none` as the object is `nullptr`. -/
def registrarPlanta (pl : Plataforma) (tipo : Int) (nom clima : String) (cin : Cin)
    (cout : Cout) : Option Planta × Cin × Cout :=
  if tipo = 1 then
    let cout1 := cout ++ ["Es medicinal? (1:Si / 0:No): "]
    let (med, cin1) := leerInt cin pl.medInicial
    let esMed := if med = 1 then true else false
    (some (Planta.Hierba nom clima esMed), cin1, cout1)
  else if tipo = 2 then
    let cout1 := cout ++ ["Numero de Tallos: "]
    let (t, cin1) := leerInt cin pl.tInicial
    (some (Planta.Mata nom clima t), cin1, cout1)
  else if tipo = 3 then
    let cout1 := cout ++ ["Tiene espinas? (1:Si / 0:No): "]
    let (esp, cin1) := leerInt cin pl.espInicial
    let tieneEsp := if esp = 1 then true else false
    (some (Planta.Arbusto nom clima tieneEsp), cin1, cout1)
  else if tipo = 4 then
    let cout1 := cout ++ ["Altura (mts): "]
    let (alt, cin1) := leerDouble pl cin pl.altInicial
    (some (Planta.Arbol nom clima alt), cin1, cout1)
  else (none, cin, cout)

/-- The method `Explorador::registrar(Bitacora& b)`, its selection loop
allowed `pasos` rounds. -/
def registrar (pl : Plataforma) (pasos : Nat) (b : Bitacora) (cin : Cin) (cout : Cout) :
    Option (Bitacora × Cin × Cout) :=
  match registrarSeleccion pasos 0 cin cout with
  | none => none
  | some (tipo, cin1, cout1) =>
    let cout2 := cout1 ++ ["Nombre Comun: "]
    let (nom, cin2) := leerTexto cin1 ""
    let cout3 := cout2 ++ ["Clima ideal: "]
    let (clima, cin3) := leerTexto cin2 ""
    match registrarPlanta pl tipo nom clima cin3 cout3 with
    | (some p, cin4, cout4) =>
      let (b5, cout5) := Bitacora.agregar b p cout4
      some (b5, cin4, cout5)
    | (none, cin4, cout4) => some (b, cin4, cout4)

end Explorador

/-- The five output statements that open each round of the menu loop of `main`. -/
def msgsMenu : List String :=
  ["\nMENU PRINCIPAL\n", "1. Registrar nueva planta\n", "2. Ver Bitacora\n", "3. Salir\n",
   "Tu seleccion: "]

/-- The three output statements that open `case 2` of `main`. -/
def msgsFiltros : List String :=
  ["\n--- FILTROS ---\n", "0.Todo | 1.Hierbas | 2.Matas | 3.Arbustos | 4.Arboles\n",
   "Elije una opcion: "]

/-- The text `case 2` of `main` writes for a filter outside 0..4. -/
def msgCategoriaNoExiste : String := ">> Esa categoria no existe.\n"

/-- The body of `case 2` of the `switch` of `main`: the view-log action. -/
def mainVerBitacora (pl : Plataforma) (fmtDouble : Double → String) (b : Bitacora)
    (cin : Cin) (cout : Cout) : Bitacora × Cin × Cout :=
  let cout1 := cout ++ msgsFiltros
  let (filtro, cin1) := leerInt cin pl.filtroInicial
  if filtro ≥ 0 ∧ filtro ≤ 4 then
    let (b2, cout2) := Bitacora.mostrarFiltrado fmtDouble b filtro cout1
    (b2, cin1, cout2)
  else (b, cin1, cout1 ++ [msgCategoriaNoExiste])

/-- One round of the `do ... while (opcion != 3)` of `main`, with `opcion` as
it stands: the menu, the extraction of `opcion` and the `switch`; the result
carries `opcion`. The loop of `registrar` is allowed `pasos` rounds. -/
def mainPaso (pl : Plataforma) (fmtDouble : Double → String) (pasos : Nat) (opcion : Int)
    (b : Bitacora) (cin : Cin) (cout : Cout) : Option (Int × Bitacora × Cin × Cout) :=
  let cout1 := cout ++ msgsMenu
  let (opcion1, cin1) := leerInt cin opcion
  if opcion1 = 1 then
    (Explorador.registrar pl pasos b cin1 cout1).map (fun r => (opcion1, r))
  else if opcion1 = 2 then
    some (opcion1, mainVerBitacora pl fmtDouble b cin1 cout1)
  else if opcion1 = 3 then some (opcion1, b, cin1, cout1 ++ ["Saliendooo...\n"])
  else some (opcion1, b, cin1, cout1 ++ ["---Opcion no valida.\n"])

/-- The menu loop of `main`, with `pasos` rounds allowed and `opcion` as it
stands: `none` when the rounds run out before option 3 is read. -/
def mainBucle (pl : Plataforma) (fmtDouble : Double → String) :
    Nat → Int → Bitacora → Cin → Cout → Option (Bitacora × Cin × Cout)
  | 0, _, _, _, _ => none
  | pasos + 1, opcion, b, cin, cout =>
    match mainPaso pl fmtDouble pasos opcion b cin cout with
    | none => none
    | some (opcion1, b1, cin1, cout1) =>
      if opcion1 ≠ 3 then mainBucle pl fmtDouble pasos opcion1 b1 cin1 cout1
      else some (b1, cin1, cout1)

/-- The function `main` on the input `tokens`: an empty `miBitacora`, `opcion`
at 0, the banner, the menu loop. -/
def main (pl : Plataforma) (fmtDouble : Double → String) (pasos : Nat)
    (tokens : List String) : Option (Bitacora × Cin × Cout) :=
  mainBucle pl fmtDouble pasos 0 ⟨[]⟩ ⟨tokens, false⟩ ["=== BITACORA DE CAMPO ===\n"]

open Planta Bitacora

/-! ## The loop of `mostrarFiltrado` -/

theorem lineasDesde_eq_enumFrom (fmtDouble : Double → String) (categoria : Int)
    (l : List Planta) (i : Nat) :
    lineasDesde fmtDouble categoria i l =
      ((l.enumFrom i).filter
        (fun ip => decide (categoria = 0 ∨ ip.2.getTipoID = categoria))).map
        (fun ip => ip.2.mostrarDetalles fmtDouble ((ip.1 : Int) + 1)) := by
  induction l generalizing i with
  | nil => rfl
  | cons p resto ih =>
    by_cases hp : categoria = 0 ∨ p.getTipoID = categoria
    · simp [lineasDesde, List.enumFrom_cons, List.filter_cons, hp, ih]
    · simp [lineasDesde, List.enumFrom_cons, List.filter_cons, hp, ih]

theorem mostrarFiltradoBucle_eq (fmtDouble : Double → String) (categoria : Int)
    (b : Bitacora) :
    ∀ (pasos i : Nat) (hay : Bool) (cout : Cout),
      pasos + i = b.coleccion.length →
      mostrarFiltradoBucle fmtDouble categoria pasos i hay b cout =
        (hay || !(lineasDesde fmtDouble categoria i (b.coleccion.drop i)).isEmpty, b,
          cout ++ lineasDesde fmtDouble categoria i (b.coleccion.drop i)) := by
  intro pasos
  induction pasos with
  | zero =>
    intro i hay cout hlen
    have hi : b.coleccion.length ≤ i := by omega
    simp [mostrarFiltradoBucle, List.drop_eq_nil_of_le hi, lineasDesde]
  | succ pasos ih =>
    intro i hay cout hlen
    have hi : i < b.coleccion.length := by omega
    have hdrop : b.coleccion.drop i = b.coleccion.get ⟨i, hi⟩ :: b.coleccion.drop (i + 1) := by
      simp
    by_cases hp : categoria = 0 ∨ (b.coleccion.get ⟨i, hi⟩).getTipoID = categoria
    · rw [mostrarFiltradoBucle, dif_pos hi, if_pos hp, ih (i + 1) true _ (by omega), hdrop,
        lineasDesde, if_pos hp]
      simp
    · rw [mostrarFiltradoBucle, dif_pos hi, if_neg hp, ih (i + 1) hay _ (by omega), hdrop,
        lineasDesde, if_neg hp]

/-- The whole of `mostrarFiltrado`: the log comes back as it was, and `cout`
grows by the listing. -/
theorem mostrarFiltrado_eq (fmtDouble : Double → String) (b : Bitacora) (categoria : Int)
    (cout : Cout) :
    mostrarFiltrado fmtDouble b categoria cout =
      (b, cout ++
        (if b.coleccion = [] then [msgVacia]
         else msgEncabezado ::
           ((if lineasDesde fmtDouble categoria 0 b.coleccion = [] then [msgSinResultados]
             else lineasDesde fmtDouble categoria 0 b.coleccion) ++ [msgPie]))) := by
  by_cases hv : b.coleccion = []
  · simp [mostrarFiltrado, hv]
  · have hne : b.coleccion.isEmpty = false := by
      cases hl : b.coleccion with
      | nil => exact absurd hl hv
      | cons _ _ => rfl
    have hb := mostrarFiltradoBucle_eq fmtDouble categoria b b.coleccion.length 0 false
      (cout ++ [msgEncabezado]) (Nat.add_zero _)
    rw [List.drop_zero] at hb
    by_cases hl : lineasDesde fmtDouble categoria 0 b.coleccion = []
    · simp [mostrarFiltrado, hne, hb, hv, hl]
    · have hne2 : (lineasDesde fmtDouble categoria 0 b.coleccion).isEmpty = false := by
        cases hc : lineasDesde fmtDouble categoria 0 b.coleccion with
        | nil => exact absurd hc hl
        | cons _ _ => rfl
      simp [mostrarFiltrado, hne, hb, hv, hl, hne2]

theorem lineasDesde_eq_lineasDeCategoria (fmtDouble : Double → String) (c : Int)
    (hc : c ≠ 0) (l : List Planta) :
    lineasDesde fmtDouble c 0 l = lineasDeCategoria fmtDouble c l := by
  rw [lineasDesde_eq_enumFrom, lineasDeCategoria, List.enum]
  congr 1
  apply List.filter_congr
  intro ip _
  simp [hc]

theorem lineasDesde_eq_lineasDeTodas (fmtDouble : Double → String) (l : List Planta) :
    lineasDesde fmtDouble 0 0 l = lineasDeTodas fmtDouble l := by
  rw [lineasDesde_eq_enumFrom, lineasDeTodas, List.enum]
  simp

theorem lineasDesde_eq_nil (fmtDouble : Double → String) (c : Int) (hc : c ≠ 0)
    (l : List Planta) (hno : ∀ p ∈ l, p.getTipoID ≠ c) (i : Nat) :
    lineasDesde fmtDouble c i l = [] := by
  induction l generalizing i with
  | nil => rfl
  | cons p resto ih =>
    have hp : ¬(c = 0 ∨ p.getTipoID = c) := by
      intro h
      rcases h with h | h
      · exact hc h
      · exact hno p (List.mem_cons_self _ _) h
    rw [lineasDesde, if_neg hp]
    exact ih (fun q hq => hno q (List.mem_cons_of_mem _ hq)) (i + 1)

/-! ## The listing -/

/-- C1: for a category `c` from 1 to 4, `mostrarFiltrado(c)` writes, between
header and footer, the lines of exactly the records whose `getTipoID()` is
`c`, in insertion order, each with its 1-based position in the whole log as
index (`lineasDeCategoria`); with no such record it writes the no-records
message in their place, and on an empty log only the empty-log message. -/
theorem mostrarFiltrado_categoria (fmtDouble : Double → String) (b : Bitacora) (c : Int)
    (cout : Cout) (hc : c = 1 ∨ c = 2 ∨ c = 3 ∨ c = 4) :
    (mostrarFiltrado fmtDouble b c cout).2 =
      cout ++
        (if b.coleccion = [] then [msgVacia]
         else msgEncabezado ::
           ((if lineasDeCategoria fmtDouble c b.coleccion = [] then [msgSinResultados]
             else lineasDeCategoria fmtDouble c b.coleccion) ++ [msgPie])) := by
  have hc0 : c ≠ 0 := by omega
  rw [mostrarFiltrado_eq, lineasDesde_eq_lineasDeCategoria fmtDouble c hc0]

/-- The scenario of the specification for C1: Mint, Oak, Basil listed with
category 1 gives Mint at index 1 and Basil at index 3. -/
theorem mostrarFiltrado_categoria_witness :
    ((1 : Int) = 1 ∨ (1 : Int) = 2 ∨ (1 : Int) = 3 ∨ (1 : Int) = 4) ∧
    (mostrarFiltrado (fun _ => "12.5")
        ⟨[Hierba "Mint" "Temperate" true, Arbol "Oak" "Temperate" ⟨0x4029000000000000⟩,
          Hierba "Basil" "Warm" false]⟩ 1 []).2 =
      ["\n=== LISTADO DE PLANTAS ===\n",
       "1. [HIERBA] Mint [Clima: Temperate] (Medicinal)\n",
       "3. [HIERBA] Basil [Clima: Warm] (Decorativa)\n",
       "==========================\n"] :=
  ⟨by decide,
   (mostrarFiltrado_categoria (fun _ => "12.5")
      ⟨[Hierba "Mint" "Temperate" true, Arbol "Oak" "Temperate" ⟨0x4029000000000000⟩,
        Hierba "Basil" "Warm" false]⟩ 1 [] (by decide)).trans (by decide)⟩

/-- C2: `mostrarFiltrado(0)` writes, between header and footer, one line for
every record, in insertion order, the record at position `i` (from 0) with
index `i + 1`; on an empty log there is no record and only the empty-log
message is written. -/
theorem mostrarFiltrado_todas (fmtDouble : Double → String) (b : Bitacora) (cout : Cout) :
    (mostrarFiltrado fmtDouble b 0 cout).2 =
      cout ++
        (if b.coleccion = [] then [msgVacia]
         else msgEncabezado :: (lineasDeTodas fmtDouble b.coleccion ++ [msgPie])) ∧
    (lineasDeTodas fmtDouble b.coleccion).length = b.coleccion.length ∧
    ∀ (i : Nat) (h : i < b.coleccion.length),
      (lineasDeTodas fmtDouble b.coleccion)[i]? =
        some ((b.coleccion.get ⟨i, h⟩).mostrarDetalles fmtDouble ((i : Int) + 1)) := by
  refine ⟨?_, ?_, ?_⟩
  · rw [mostrarFiltrado_eq, lineasDesde_eq_lineasDeTodas]
    by_cases hv : b.coleccion = []
    · simp [hv]
    · have hl : lineasDeTodas fmtDouble b.coleccion ≠ [] := by
        intro h
        have := congrArg List.length h
        simp [lineasDeTodas] at this
        exact hv this
      simp [hv, hl]
  · simp [lineasDeTodas]
  · intro i h
    simp [lineasDeTodas, List.getElem?_map, List.enum, List.getElem?_enumFrom, h]

/-- The scenario of the specification for C2: Mint, Oak, Basil listed with
category 0 come out at the indices 1, 2, 3. -/
theorem mostrarFiltrado_todas_witness :
    (mostrarFiltrado (fun _ => "12.5")
        ⟨[Hierba "Mint" "Temperate" true, Arbol "Oak" "Temperate" ⟨0x4029000000000000⟩,
          Hierba "Basil" "Warm" false]⟩ 0 []).2 =
      ["\n=== LISTADO DE PLANTAS ===\n",
       "1. [HIERBA] Mint [Clima: Temperate] (Medicinal)\n",
       "2. [ARBOL] Oak [Clima: Temperate] (12.5 m)\n",
       "3. [HIERBA] Basil [Clima: Warm] (Decorativa)\n",
       "==========================\n"] :=
  (mostrarFiltrado_todas (fun _ => "12.5")
      ⟨[Hierba "Mint" "Temperate" true, Arbol "Oak" "Temperate" ⟨0x4029000000000000⟩,
        Hierba "Basil" "Warm" false]⟩ []).1.trans (by decide)

/-- Every record line ends in a closing bracket and a line break. -/
theorem mostrarDetalles_fin (fmtDouble : Double → String) (p : Planta) (i : Int) :
    ∃ t : String, p.mostrarDetalles fmtDouble i = t ++ ")\n" := by
  cases p with
  | Hierba n c m =>
    exact ⟨toString i ++ ". [HIERBA] " ++ n ++ " [Clima: " ++ c ++ "] " ++ "("
      ++ (if m = true then "Medicinal" else "Decorativa"),
      by simp only [mostrarDetalles, String.append_assoc]; rfl⟩
  | Mata n c t =>
    exact ⟨toString i ++ ". [MATA] " ++ n ++ " [Clima: " ++ c ++ "] " ++ "(Tallos: "
      ++ toString t, by simp only [mostrarDetalles, String.append_assoc]; rfl⟩
  | Arbusto n c e =>
    exact ⟨toString i ++ ". [ARBUSTO] " ++ n ++ " [Clima: " ++ c ++ "] " ++ "("
      ++ (if e = true then "Con Espinas" else "Suave"),
      by simp only [mostrarDetalles, String.append_assoc]; rfl⟩
  | Arbol n c a =>
    exact ⟨toString i ++ ". [ARBOL] " ++ n ++ " [Clima: " ++ c ++ "] " ++ "("
      ++ fmtDouble a ++ " m", by simp only [mostrarDetalles, String.append_assoc]; rfl⟩

/-- No record line is the empty-log message: that one ends in a full stop. -/
theorem mostrarDetalles_ne_msgVacia (fmtDouble : Double → String) (p : Planta) (i : Int) :
    p.mostrarDetalles fmtDouble i ≠ msgVacia := by
  obtain ⟨t, ht⟩ := mostrarDetalles_fin fmtDouble p i
  rw [ht]
  intro h
  have hd := congrArg String.data h
  have hs : t.data ++ [')', '\n'] = "\nLa bitacora esta vacia".data ++ ['.', '\n'] := by
    simpa [msgVacia] using hd
  have := (List.append_inj' hs rfl).2
  exact absurd this (by decide)

/-- C3: on an empty log `mostrarFiltrado(c)` writes the empty-log message and
nothing more, whatever `c` is; that message is neither the header, nor the
no-records message, nor the footer, nor a record line. -/
theorem mostrarFiltrado_vacia (fmtDouble : Double → String) (c : Int) (cout : Cout) :
    mostrarFiltrado fmtDouble ⟨[]⟩ c cout = (⟨[]⟩, cout ++ [msgVacia]) ∧
    msgVacia ≠ msgEncabezado ∧ msgVacia ≠ msgSinResultados ∧ msgVacia ≠ msgPie ∧
    ∀ (p : Planta) (i : Int), p.mostrarDetalles fmtDouble i ≠ msgVacia :=
  ⟨rfl, by decide, by decide, by decide, mostrarDetalles_ne_msgVacia fmtDouble⟩

/-- C4: on a non-empty log, for a category `c` other than 0 that no stored
record has, `mostrarFiltrado(c)` writes the header, the no-records message and
the footer, in this order, and nothing else. -/
theorem mostrarFiltrado_sin_resultados (fmtDouble : Double → String) (b : Bitacora)
    (c : Int) (cout : Cout) (hne : b.coleccion ≠ []) (hc : c ≠ 0)
    (hno : ∀ p ∈ b.coleccion, p.getTipoID ≠ c) :
    mostrarFiltrado fmtDouble b c cout =
      (b, cout ++ [msgEncabezado, msgSinResultados, msgPie]) := by
  rw [mostrarFiltrado_eq, lineasDesde_eq_nil fmtDouble c hc b.coleccion hno 0]
  simp [hne]

/-- A log holding one herb, listed with category 2 (C4). -/
theorem mostrarFiltrado_sin_resultados_witness :
    mostrarFiltrado (fun _ => "") ⟨[Hierba "Mint" "Temperate" true]⟩ 2 [] =
      (⟨[Hierba "Mint" "Temperate" true]⟩,
        ["\n=== LISTADO DE PLANTAS ===\n", "Aun no has registrado ninguna planta aqui :)\n",
         "==========================\n"]) :=
  mostrarFiltrado_sin_resultados (fun _ => "") ⟨[Hierba "Mint" "Temperate" true]⟩ 2 []
    (by decide) (by decide) (by decide)

/-- C5: `mostrarFiltrado` gives the log back as it received it, for every log
and every integer category; so after appending the records `rs` to the empty
log and listing with the categories `cs`, one after the other, the log holds
exactly `rs`, and its length is the length of `rs`. -/
theorem mostrarFiltrado_solo_lectura (fmtDouble : Double → String) :
    (∀ (b : Bitacora) (c : Int) (cout : Cout), (mostrarFiltrado fmtDouble b c cout).1 = b) ∧
    ∀ (rs : List Planta) (cs : List Int) (cout : Cout),
      (cs.foldl (fun st c => mostrarFiltrado fmtDouble st.1 c st.2)
        (rs.foldl (fun st r => agregar st.1 r st.2) (⟨[]⟩, cout))).1.coleccion = rs ∧
      (cs.foldl (fun st c => mostrarFiltrado fmtDouble st.1 c st.2)
        (rs.foldl (fun st r => agregar st.1 r st.2) (⟨[]⟩, cout))).1.coleccion.length
        = rs.length := by
  have h1 : ∀ (b : Bitacora) (c : Int) (cout : Cout),
      (mostrarFiltrado fmtDouble b c cout).1 = b := by
    intro b c cout
    rw [mostrarFiltrado_eq]
  have h2 : ∀ (cs : List Int) (st : Bitacora × Cout),
      (cs.foldl (fun st c => mostrarFiltrado fmtDouble st.1 c st.2) st).1 = st.1 := by
    intro cs
    induction cs with
    | nil => intro st; rfl
    | cons c cs ih =>
      intro st
      rw [List.foldl_cons, ih, h1]
  have h3 : ∀ (rs : List Planta) (st : Bitacora × Cout),
      (rs.foldl (fun st r => agregar st.1 r st.2) st).1.coleccion = st.1.coleccion ++ rs := by
    intro rs
    induction rs with
    | nil => intro st; simp
    | cons r rs ih =>
      intro st
      rw [List.foldl_cons, ih]
      simp [agregar]
  refine ⟨h1, ?_⟩
  intro rs cs cout
  have h4 : (cs.foldl (fun st c => mostrarFiltrado fmtDouble st.1 c st.2)
      (rs.foldl (fun st r => agregar st.1 r st.2) (⟨[]⟩, cout))).1.coleccion = rs := by
    rw [h2, h3]
    simp
  exact ⟨h4, by rw [h4]⟩

/-- C6: `agregar` puts the record at the end of the log: the log becomes the
old one followed by the record, one longer, every earlier position holding
what it held, and `cout` grows by the one confirmation message. -/
theorem agregar_al_final (b : Bitacora) (p : Planta) (cout : Cout) :
    (agregar b p cout).1.coleccion = b.coleccion ++ [p] ∧
    (agregar b p cout).1.coleccion.length = b.coleccion.length + 1 ∧
    (∀ (i : Nat) (h : i < b.coleccion.length),
      (agregar b p cout).1.coleccion[i]? = some (b.coleccion.get ⟨i, h⟩)) ∧
    (agregar b p cout).1.coleccion[b.coleccion.length]? = some p ∧
    (agregar b p cout).2 = cout ++ [msgRegistrada] := by
  refine ⟨rfl, by simp [agregar], ?_, by simp [agregar], rfl⟩
  intro i h
  simp [agregar, List.getElem?_append_left h]

/-- C7: `getTipoID` depends on the variant alone: 1 for every `Hierba`, 2 for
every `Mata`, 3 for every `Arbusto`, 4 for every `Arbol`, whatever the other
members hold; so it lies between 1 and 4, and neither `mostrarFiltrado` nor
`agregar` changes it for a record the log holds. -/
theorem getTipoID_por_variante :
    (∀ (n c : String) (m : Bool), (Hierba n c m).getTipoID = 1) ∧
    (∀ (n c : String) (t : Int), (Mata n c t).getTipoID = 2) ∧
    (∀ (n c : String) (e : Bool), (Arbusto n c e).getTipoID = 3) ∧
    (∀ (n c : String) (a : Double), (Arbol n c a).getTipoID = 4) ∧
    (∀ p : Planta, 1 ≤ p.getTipoID ∧ p.getTipoID ≤ 4) ∧
    (∀ (fmtDouble : Double → String) (b : Bitacora) (c : Int) (cout : Cout),
      (mostrarFiltrado fmtDouble b c cout).1.coleccion.map getTipoID
        = b.coleccion.map getTipoID) ∧
    ∀ (b : Bitacora) (p : Planta) (cout : Cout),
      ((agregar b p cout).1.coleccion.map getTipoID).take b.coleccion.length
        = b.coleccion.map getTipoID := by
  refine ⟨fun _ _ _ => rfl, fun _ _ _ => rfl, fun _ _ _ => rfl, fun _ _ _ => rfl, ?_, ?_, ?_⟩
  · intro p
    cases p <;> simp [getTipoID]
  · intro fmtDouble b c cout
    rw [mostrarFiltrado_eq]
  · intro b p cout
    simp [agregar, List.take_append_eq_append_take]

/-! ## The record lines -/

theorem lineaDeRegistro_eq (i : Int) (etiqueta nombre clima detalle : String) :
    (lineaDeRegistro i etiqueta nombre clima detalle).data =
      (toString i).data ++ ('.' :: ' ' :: '[' :: etiqueta.data) ++ (']' :: ' ' :: nombre.data)
        ++ " [Clima: ".data ++ clima.data ++ (']' :: ' ' :: '(' :: detalle.data) ++ [')', '\n'] := by
  simp [lineaDeRegistro, String.data_append]

/-- The text of the three variants, detail clause included. -/
theorem mostrarDetalles_eq (fmtDouble : Double → String) (n c : String) (i : Int) :
    (∀ m : Bool, (Hierba n c m).mostrarDetalles fmtDouble i =
      lineaDeRegistro i "HIERBA" n c (if m = true then "Medicinal" else "Decorativa")) ∧
    (∀ t : Int, (Mata n c t).mostrarDetalles fmtDouble i =
      lineaDeRegistro i "MATA" n c ("Tallos: " ++ toString t)) ∧
    (∀ e : Bool, (Arbusto n c e).mostrarDetalles fmtDouble i =
      lineaDeRegistro i "ARBUSTO" n c (if e = true then "Con Espinas" else "Suave")) := by
  refine ⟨?_, ?_, ?_⟩
  · intro m
    apply String.ext
    rw [lineaDeRegistro_eq]
    simp [mostrarDetalles, String.data_append]
  · intro t
    apply String.ext
    rw [lineaDeRegistro_eq]
    simp [mostrarDetalles, String.data_append]
  · intro e
    apply String.ext
    rw [lineaDeRegistro_eq]
    simp [mostrarDetalles, String.data_append]

/-- C8: for every `Hierba`, `Mata` and `Arbusto` and every index `i`,
`mostrarDetalles(i)` writes the one line
`<i>. [<LABEL>] <nombreComun> [Clima: <climaIdeal>] (<detail>)` with the index in
decimal, the label `HIERBA`, `MATA` or `ARBUSTO` of the variant, the name and
the climate as constructed, and a detail that depends on the extra member
alone. -/
theorem mostrarDetalles_forma (fmtDouble : Double → String) :
    (∃ detalle : Bool → String, ∀ (n c : String) (m : Bool) (i : Int),
      (Hierba n c m).mostrarDetalles fmtDouble i = lineaDeRegistro i "HIERBA" n c (detalle m)) ∧
    (∃ detalle : Int → String, ∀ (n c : String) (t : Int) (i : Int),
      (Mata n c t).mostrarDetalles fmtDouble i = lineaDeRegistro i "MATA" n c (detalle t)) ∧
    (∃ detalle : Bool → String, ∀ (n c : String) (e : Bool) (i : Int),
      (Arbusto n c e).mostrarDetalles fmtDouble i =
        lineaDeRegistro i "ARBUSTO" n c (detalle e)) := by
  exact ⟨⟨fun m => if m = true then "Medicinal" else "Decorativa",
      fun n c m i => (mostrarDetalles_eq fmtDouble n c i).1 m⟩,
    ⟨fun t => "Tallos: " ++ toString t, fun n c t i => (mostrarDetalles_eq fmtDouble n c i).2.1 t⟩,
    ⟨fun e => if e = true then "Con Espinas" else "Suave",
      fun n c e i => (mostrarDetalles_eq fmtDouble n c i).2.2 e⟩⟩

/-- C9 as the table of section 3 words it fails on the code: a `Hierba` that
is not medicinal is rendered with `Decorativa`, not `Decorative`; an `Arbusto`
with `Con Espinas` or `Suave`, not `With Thorns` or `Smooth`; a `Mata` with
`Tallos: N`, not `Stems: N`. -/
theorem mostrarDetalles_tabla_counterexample :
    (Hierba "Basil" "Warm" false).mostrarDetalles (fun _ => "") 3
        = "3. [HIERBA] Basil [Clima: Warm] (Decorativa)\n" ∧
    (Hierba "Basil" "Warm" false).mostrarDetalles (fun _ => "") 3
        ≠ lineaDeRegistro 3 "HIERBA" "Basil" "Warm" "Decorative" ∧
    (Arbusto "Rosal" "Warm" true).mostrarDetalles (fun _ => "") 1
        = "1. [ARBUSTO] Rosal [Clima: Warm] (Con Espinas)\n" ∧
    (Arbusto "Rosal" "Warm" true).mostrarDetalles (fun _ => "") 1
        ≠ lineaDeRegistro 1 "ARBUSTO" "Rosal" "Warm" "With Thorns" ∧
    (Arbusto "Boj" "Warm" false).mostrarDetalles (fun _ => "") 2
        = "2. [ARBUSTO] Boj [Clima: Warm] (Suave)\n" ∧
    (Arbusto "Boj" "Warm" false).mostrarDetalles (fun _ => "") 2
        ≠ lineaDeRegistro 2 "ARBUSTO" "Boj" "Warm" "Smooth" ∧
    (Mata "Romero" "Dry" 5).mostrarDetalles (fun _ => "") 4
        = "4. [MATA] Romero [Clima: Dry] (Tallos: 5)\n" ∧
    (Mata "Romero" "Dry" 5).mostrarDetalles (fun _ => "") 4
        ≠ lineaDeRegistro 4 "MATA" "Romero" "Dry" "Stems: 5" := by
  decide

/-- C9, amended: the detail clause of `mostrarDetalles` is `Medicinal` for a
`Hierba` with `esMedicinal` true and `Decorativa` otherwise; `Con Espinas` for
an `Arbusto` with `tieneEspinas` true and `Suave` otherwise; `Tallos: N` for a
`Mata` with `cantidadTallos` N, the number in decimal. -/
theorem mostrarDetalles_detalle (fmtDouble : Double → String) (n c : String) (i : Int) :
    (Hierba n c true).mostrarDetalles fmtDouble i = lineaDeRegistro i "HIERBA" n c "Medicinal" ∧
    (Hierba n c false).mostrarDetalles fmtDouble i
      = lineaDeRegistro i "HIERBA" n c "Decorativa" ∧
    (Arbusto n c true).mostrarDetalles fmtDouble i
      = lineaDeRegistro i "ARBUSTO" n c "Con Espinas" ∧
    (Arbusto n c false).mostrarDetalles fmtDouble i = lineaDeRegistro i "ARBUSTO" n c "Suave" ∧
    ∀ t : Int, (Mata n c t).mostrarDetalles fmtDouble i
      = lineaDeRegistro i "MATA" n c ("Tallos: " ++ toString t) := by
  have h := mostrarDetalles_eq fmtDouble n c i
  exact ⟨h.1 true, h.1 false, h.2.2 true, h.2.2 false, h.2.1⟩

/-- C10: on the empty log, for every category, what `mostrarFiltrado` writes
is the empty-log message alone: one output statement, whose text is a line
break, the line `La bitacora esta vacia.` and a line break, so one line of
text and nothing else. -/
theorem mostrarFiltrado_vacia_una_linea (fmtDouble : Double → String) (c : Int) :
    (mostrarFiltrado fmtDouble ⟨[]⟩ c []).2 = ["\nLa bitacora esta vacia.\n"] ∧
    (mostrarFiltrado fmtDouble ⟨[]⟩ c []).2.length = 1 ∧
    lineasConTexto (String.join (mostrarFiltrado fmtDouble ⟨[]⟩ c []).2)
      = ["La bitacora esta vacia."] :=
  ⟨rfl, rfl, by
    show lineasConTexto (String.join ["\nLa bitacora esta vacia.\n"]) = _
    decide⟩

/-- The scenario of the specification for C10: the empty log listed with
category 2. -/
theorem mostrarFiltrado_vacia_una_linea_witness :
    (mostrarFiltrado (fun _ => "") ⟨[]⟩ 2 []).2 = ["\nLa bitacora esta vacia.\n"] ∧
    lineasConTexto (String.join (mostrarFiltrado (fun _ => "") ⟨[]⟩ 2 []).2)
      = ["La bitacora esta vacia."] :=
  ⟨(mostrarFiltrado_vacia_una_linea (fun _ => "") 2).1,
   (mostrarFiltrado_vacia_una_linea (fun _ => "") 2).2.2⟩

/-! ## Categories out of range, construction -/

theorem lineasDesde_eq_lineasListado (fmtDouble : Double → String) (c : Int)
    (l : List Planta) :
    lineasDesde fmtDouble c 0 l = lineasListado fmtDouble c l := by
  rw [lineasDesde_eq_enumFrom, lineasListado, List.enum]

/-- The output of `mostrarFiltrado` on a log that holds a record, over
`lineasListado`. -/
theorem mostrarFiltrado_lineasListado (fmtDouble : Double → String) (b : Bitacora)
    (c : Int) (cout : Cout) (hne : b.coleccion ≠ []) :
    mostrarFiltrado fmtDouble b c cout =
      (b, cout ++ msgEncabezado ::
        ((if lineasListado fmtDouble c b.coleccion = [] then [msgSinResultados]
          else lineasListado fmtDouble c b.coleccion) ++ [msgPie])) := by
  rw [mostrarFiltrado_eq, lineasDesde_eq_lineasListado, if_neg hne]

/-- C11: for an integer category below 0 or above 4 `mostrarFiltrado` returns
as for any other: on a non-empty log it writes the header, the no-records
message and the footer and no record line, on an empty log the empty-log
message alone; the log is as it was. -/
theorem mostrarFiltrado_fuera_de_rango (fmtDouble : Double → String) (b : Bitacora)
    (c : Int) (cout : Cout) (hc : c < 0 ∨ 4 < c) :
    mostrarFiltrado fmtDouble b c cout =
      (b, cout ++
        (if b.coleccion = [] then [msgVacia]
         else [msgEncabezado, msgSinResultados, msgPie])) ∧
    lineasListado fmtDouble c b.coleccion = [] := by
  have hc0 : c ≠ 0 := by omega
  have hno : ∀ p ∈ b.coleccion, p.getTipoID ≠ c := by
    intro p _ h
    have h14 : 1 ≤ p.getTipoID ∧ p.getTipoID ≤ 4 := by cases p <;> simp [getTipoID]
    omega
  have hnil := lineasDesde_eq_nil fmtDouble c hc0 b.coleccion hno 0
  refine ⟨?_, by rw [← lineasDesde_eq_lineasListado, hnil]⟩
  rw [mostrarFiltrado_eq, hnil]
  by_cases hv : b.coleccion = []
  · simp [hv]
  · simp [hv]

/-- Categories 7 and -1 on a log of two records, and category 5 on the empty
log (C11). -/
theorem mostrarFiltrado_fuera_de_rango_witness :
    mostrarFiltrado (fun _ => "")
        ⟨[Hierba "Mint" "Temperate" true, Mata "Romero" "Dry" 5]⟩ 7 [] =
      (⟨[Hierba "Mint" "Temperate" true, Mata "Romero" "Dry" 5]⟩,
        ["\n=== LISTADO DE PLANTAS ===\n", "Aun no has registrado ninguna planta aqui :)\n",
         "==========================\n"]) ∧
    mostrarFiltrado (fun _ => "")
        ⟨[Hierba "Mint" "Temperate" true, Mata "Romero" "Dry" 5]⟩ (-1) [] =
      (⟨[Hierba "Mint" "Temperate" true, Mata "Romero" "Dry" 5]⟩,
        ["\n=== LISTADO DE PLANTAS ===\n", "Aun no has registrado ninguna planta aqui :)\n",
         "==========================\n"]) ∧
    mostrarFiltrado (fun _ => "") ⟨[]⟩ 5 [] = (⟨[]⟩, ["\nLa bitacora esta vacia.\n"]) :=
  ⟨(mostrarFiltrado_fuera_de_rango (fun _ => "")
      ⟨[Hierba "Mint" "Temperate" true, Mata "Romero" "Dry" 5]⟩ 7 [] (by decide)).1,
   (mostrarFiltrado_fuera_de_rango (fun _ => "")
      ⟨[Hierba "Mint" "Temperate" true, Mata "Romero" "Dry" 5]⟩ (-1) [] (by decide)).1,
   (mostrarFiltrado_fuera_de_rango (fun _ => "") ⟨[]⟩ 5 [] (by decide)).1⟩

/-- C12: the constructors take every name, every climate and every stem count
and the record holds them as given: the name and the climate of each variant
are the arguments, the empty string included, two `Mata` with different
arguments are different records, and a `Mata` built with stem count `t`
renders the decimal text of `t`, a minus sign and the digits when `t < 0`. -/
theorem construccion_sin_validacion (fmtDouble : Double → String) (n c : String) :
    (∀ m : Bool, (Hierba n c m).getNombre = n ∧ (Hierba n c m).climaIdeal = c) ∧
    (∀ t : Int, (Mata n c t).getNombre = n ∧ (Mata n c t).climaIdeal = c) ∧
    (∀ e : Bool, (Arbusto n c e).getNombre = n ∧ (Arbusto n c e).climaIdeal = c) ∧
    (∀ a : Double, (Arbol n c a).getNombre = n ∧ (Arbol n c a).climaIdeal = c) ∧
    (∀ (t : Int) (n2 c2 : String) (t2 : Int),
      Mata n c t = Mata n2 c2 t2 → n = n2 ∧ c = c2 ∧ t = t2) ∧
    (∀ (t i : Int), (Mata n c t).mostrarDetalles fmtDouble i =
      lineaDeRegistro i "MATA" n c ("Tallos: " ++ toString t)) ∧
    (∀ k : Nat, toString (Int.negSucc k) = "-" ++ toString (k + 1)) ∧
    (Mata "" "" (-3)).mostrarDetalles fmtDouble 1 = "1. [MATA]  [Clima: ] (Tallos: -3)\n" := by
  refine ⟨fun _ => ⟨rfl, rfl⟩, fun _ => ⟨rfl, rfl⟩, fun _ => ⟨rfl, rfl⟩, fun _ => ⟨rfl, rfl⟩,
    ?_, fun t i => (mostrarDetalles_eq fmtDouble n c i).2.1 t, fun _ => rfl, ?_⟩
  swap
  · show toString (1 : Int) ++ ". [MATA] " ++ "" ++ " [Clima: " ++ "" ++ "] " ++ "(Tallos: "
      ++ toString (-3 : Int) ++ ")" ++ "\n" = "1. [MATA]  [Clima: ] (Tallos: -3)\n"
    decide
  intro t n2 c2 t2 h
  injection h with h1 h2 h3
  exact ⟨h1, h2, h3⟩

/-! ## The shell: `main` and `Explorador::registrar` -/

open Explorador

/-! ### The text of an integer is read back as that integer -/

theorem digitChar_isDigit : ∀ k : Nat, k < 10 →
    (Nat.digitChar k).isDigit = true ∧ (Nat.digitChar k).toNat - 48 = k := by
  decide

theorem toDigitsCore_digitos : ∀ (fuel n : Nat) (ds : List Char), n < fuel →
    ∃ pre : List Char, Nat.toDigitsCore 10 fuel n ds = pre ++ ds ∧ pre ≠ [] ∧
      (∀ c ∈ pre, c.isDigit = true) ∧ valorDigitos pre = n := by
  intro fuel
  induction fuel with
  | zero => intro n ds h; omega
  | succ fuel ih =>
    intro n ds h
    have hd := digitChar_isDigit (n % 10) (Nat.mod_lt _ (by decide))
    by_cases h0 : n / 10 = 0
    · refine ⟨[Nat.digitChar (n % 10)], ?_, by simp, ?_, ?_⟩
      · simp [Nat.toDigitsCore, h0]
      · intro c hc
        rw [List.mem_singleton] at hc
        rw [hc]; exact hd.1
      · simp only [valorDigitos, List.foldl_cons, List.foldl_nil]
        omega
    · obtain ⟨pre, h1, _, h3, h4⟩ := ih (n / 10) (Nat.digitChar (n % 10) :: ds) (by omega)
      refine ⟨pre ++ [Nat.digitChar (n % 10)], ?_, by simp, ?_, ?_⟩
      · simp [Nat.toDigitsCore, h0, h1]
      · intro c hc
        rw [List.mem_append, List.mem_singleton] at hc
        rcases hc with hc | hc
        · exact h3 c hc
        · rw [hc]; exact hd.1
      · simp only [valorDigitos, List.foldl_append, List.foldl_cons, List.foldl_nil] at h4 ⊢
        omega

theorem analizarInt_digitos (neg : Bool) (pre : List Char) (hne : pre ≠ [])
    (hdig : ∀ c ∈ pre, c.isDigit = true) (tok : String)
    (htok : quitarSigno tok.data = (neg, pre)) :
    analizarInt tok =
      some (if neg then -(valorDigitos pre : Int) else (valorDigitos pre : Int), "") := by
  have h1 : pre.takeWhile Char.isDigit = pre := by
    rw [List.takeWhile_eq_self_iff]; exact hdig
  have h2 : pre.dropWhile Char.isDigit = [] := by
    rw [List.dropWhile_eq_nil_iff]; exact hdig
  have h3 : pre.isEmpty = false := by
    cases pre with
    | nil => exact absurd rfl hne
    | cons _ _ => rfl
  simp only [analizarInt, htok, h1, h2, h3]
  rfl

theorem quitarSigno_digito (pre : List Char) (hne : pre ≠ [])
    (hdig : ∀ c ∈ pre, c.isDigit = true) : quitarSigno pre = (false, pre) := by
  cases pre with
  | nil => exact absurd rfl hne
  | cons c cs =>
    have hc := hdig c (List.mem_cons_self _ _)
    unfold quitarSigno
    split
    · rename_i heq
      injection heq with h1 _
      rw [h1] at hc
      exact absurd hc (by decide)
    · rename_i heq
      injection heq with h1 _
      rw [h1] at hc
      exact absurd hc (by decide)
    · rfl

/-- Every integer has a token that the extraction of an `int` reads whole as
that integer: its decimal text. -/
theorem analizarInt_toString (v : Int) : analizarInt (toString v) = some (v, "") := by
  cases v with
  | ofNat m =>
    obtain ⟨pre, h1, h2, h3, h4⟩ := toDigitsCore_digitos (m + 1) m [] (by omega)
    rw [List.append_nil] at h1
    have hdata : (toString (Int.ofNat m)).data = pre := by
      show (Nat.repr m).data = pre
      simp [Nat.repr, Nat.toDigits, h1, List.asString]
    have := analizarInt_digitos false pre h2 h3 (toString (Int.ofNat m))
      (by rw [hdata]; exact quitarSigno_digito pre h2 h3)
    rw [this, h4]
    rfl
  | negSucc m =>
    obtain ⟨pre, h1, h2, h3, h4⟩ := toDigitsCore_digitos (m + 1 + 1) (m + 1) [] (by omega)
    rw [List.append_nil] at h1
    have hdata : (toString (Int.negSucc m)).data = '-' :: pre := by
      show ("-" ++ Nat.repr (m + 1)).data = '-' :: pre
      simp [Nat.repr, Nat.toDigits, h1, List.asString, String.data_append]
    have := analizarInt_digitos true pre h2 h3 (toString (Int.negSucc m))
      (by rw [hdata]; rfl)
    rw [this, h4]
    rfl

/-! ### Extractions -/

theorem acotar_eq (v : Int) (h : INT_MIN ≤ v ∧ v ≤ INT_MAX) : acotar v = v := by
  unfold acotar
  rw [if_neg (by omega), if_neg (by omega)]

theorem acotar_rango (v lo hi : Int) (hlo : 0 ≤ lo) (hhi : hi ≤ 4) :
    (lo ≤ acotar v ∧ acotar v ≤ hi) ↔ (lo ≤ v ∧ v ≤ hi) := by
  unfold acotar
  split
  · rename_i h
    simp only [INT_MAX] at h ⊢
    omega
  · split
    · rename_i h
      simp only [INT_MIN] at h ⊢
      omega
    · rfl

theorem leerInt_token (tok : String) (v : Int) (sobra : String) (resto : List String)
    (x : Int) (h : analizarInt tok = some (v, sobra)) :
    leerInt ⟨tok :: resto, false⟩ x =
      (acotar v, ⟨devolver sobra resto, decide (v > INT_MAX ∨ v < INT_MIN)⟩) := by
  by_cases h1 : v > INT_MAX
  · simp [leerInt, h, acotar, h1]
  · by_cases h2 : v < INT_MIN
    · simp [leerInt, h, acotar, h1, h2]
    · simp [leerInt, h, acotar, h1, h2]

theorem leerInt_falla (cin : Cin) (x : Int) (h : cin.falla = true) :
    leerInt cin x = (x, cin) := by
  simp [leerInt, h]

/-! ### The loops on a failed stream -/

/-- On a failed stream the selection loop of `registrar` does not end: `tipo`
stays outside 1..4. -/
theorem registrarSeleccion_falla (cin : Cin) (h : cin.falla = true) :
    ∀ (pasos : Nat) (tipo : Int) (cout : Cout), tipo < 1 ∨ tipo > 4 →
      registrarSeleccion pasos tipo cin cout = none := by
  intro pasos
  induction pasos with
  | zero => intro tipo cout _; rfl
  | succ pasos ih =>
    intro tipo cout ht
    rw [registrarSeleccion, leerInt_falla cin tipo h]
    simp only [if_pos ht]
    exact ih tipo _ ht

/-- On a failed stream the menu loop of `main` does not end, unless `opcion`
is 3 already. -/
theorem mainBucle_falla (pl : Plataforma) (fmtDouble : Double → String) (cin : Cin)
    (h : cin.falla = true) (opcion : Int) (hop : opcion ≠ 3) :
    ∀ (pasos : Nat) (b : Bitacora) (cout : Cout),
      mainBucle pl fmtDouble pasos opcion b cin cout = none := by
  intro pasos
  induction pasos with
  | zero => intro b cout; rfl
  | succ pasos ih =>
    intro b cout
    rw [mainBucle, mainPaso, leerInt_falla cin opcion h]
    by_cases h1 : opcion = 1
    · simp [h1, registrar, registrarSeleccion_falla cin h pasos 0 _ (Or.inl (by decide))]
    · by_cases h2 : opcion = 2
      · have hcin : (mainVerBitacora pl fmtDouble b cin (cout ++ msgsMenu)).2.1 = cin := by
          simp only [mainVerBitacora, leerInt_falla cin _ h]
          split <;> rfl
        simp only [h2, if_neg (show ¬((2 : Int) = 1) by decide), if_true]
        have := ih (mainVerBitacora pl fmtDouble b cin (cout ++ msgsMenu)).1
          (mainVerBitacora pl fmtDouble b cin (cout ++ msgsMenu)).2.2
        rw [h2] at this
        simpa [hcin] using this
      · simp only [if_neg h1, if_neg h2, if_neg hop]
        rw [if_pos hop]
        exact ih b _

/-! ### The view-log action -/

/-- C13: in the view-log action of `main`, for every integer `v` that the
token read as the filter writes: for `0 <= v <= 4` the outcome is that of one
call of `mostrarFiltrado(v)` after the three prompts; otherwise the log is as
it was and the output is the three prompts and the one error message, with no
listing. The action writes its prompts once and reads the filter once, and
the menu loop goes on with its next round, the main menu: on the tokens that
follow when the filter was read whole as an `int`; with the stream failed, and
so without end, when the integer is outside the range of `int`. -/
theorem mainVerBitacora_filtro (pl : Plataforma) (fmtDouble : Double → String)
    (b : Bitacora) (tok : String) (v : Int) (sobra : String) (resto : List String)
    (cout : Cout) (htok : analizarInt tok = some (v, sobra)) :
    mainVerBitacora pl fmtDouble b ⟨tok :: resto, false⟩ cout =
      (if 0 ≤ v ∧ v ≤ 4 then
        ((mostrarFiltrado fmtDouble b v (cout ++ msgsFiltros)).1, ⟨devolver sobra resto, false⟩,
          (mostrarFiltrado fmtDouble b v (cout ++ msgsFiltros)).2)
       else (b, ⟨devolver sobra resto, decide (v > INT_MAX ∨ v < INT_MIN)⟩,
          cout ++ msgsFiltros ++ [msgCategoriaNoExiste])) ∧
    (∀ (pasos : Nat) (opcion : Int),
      mainPaso pl fmtDouble pasos opcion b ⟨"2" :: tok :: resto, false⟩ cout =
        some (2, mainVerBitacora pl fmtDouble b ⟨tok :: resto, false⟩ (cout ++ msgsMenu))) ∧
    (¬(0 ≤ v ∧ v ≤ 4) → INT_MIN ≤ v ∧ v ≤ INT_MAX → sobra = "" →
      ∀ (pasos : Nat) (opcion : Int),
        mainBucle pl fmtDouble (pasos + 1) opcion b ⟨"2" :: tok :: resto, false⟩ cout =
          mainBucle pl fmtDouble pasos 2 b ⟨resto, false⟩
            (cout ++ msgsMenu ++ msgsFiltros ++ [msgCategoriaNoExiste])) ∧
    (v > INT_MAX ∨ v < INT_MIN →
      ∀ (pasos : Nat) (opcion : Int),
        mainBucle pl fmtDouble pasos opcion b ⟨"2" :: tok :: resto, false⟩ cout = none) := by
  have h1 : ∀ cout : Cout, mainVerBitacora pl fmtDouble b ⟨tok :: resto, false⟩ cout =
      (if 0 ≤ v ∧ v ≤ 4 then
        ((mostrarFiltrado fmtDouble b v (cout ++ msgsFiltros)).1, ⟨devolver sobra resto, false⟩,
          (mostrarFiltrado fmtDouble b v (cout ++ msgsFiltros)).2)
       else (b, ⟨devolver sobra resto, decide (v > INT_MAX ∨ v < INT_MIN)⟩,
          cout ++ msgsFiltros ++ [msgCategoriaNoExiste])) := by
    intro cout
    have hr := acotar_rango v 0 4 (le_refl _) (le_refl _)
    by_cases hf : 0 ≤ v ∧ v ≤ 4
    · have hin : INT_MIN ≤ v ∧ v ≤ INT_MAX := by
        simp only [INT_MIN, INT_MAX]; omega
      have hfl : decide (v > INT_MAX ∨ v < INT_MIN) = false := by
        simp only [INT_MIN, INT_MAX] at hin ⊢
        simp only [decide_eq_false_iff_not]; omega
      simp only [mainVerBitacora, leerInt_token tok v sobra resto _ htok, acotar_eq v hin,
        hfl, ge_iff_le, if_pos hf]
    · have hf2 : ¬(0 ≤ acotar v ∧ acotar v ≤ 4) := fun h => hf (hr.mp h)
      simp only [mainVerBitacora, leerInt_token tok v sobra resto _ htok, ge_iff_le,
        if_neg hf, if_neg hf2]
  have h2 : ∀ (pasos : Nat) (opcion : Int),
      mainPaso pl fmtDouble pasos opcion b ⟨"2" :: tok :: resto, false⟩ cout =
        some (2, mainVerBitacora pl fmtDouble b ⟨tok :: resto, false⟩ (cout ++ msgsMenu)) := by
    intro pasos opcion
    have h2tok : analizarInt "2" = some (2, "") := by decide
    have hl := leerInt_token "2" 2 "" (tok :: resto) opcion h2tok
    have hac : acotar 2 = 2 := by decide
    have hfl : decide ((2 : Int) > INT_MAX ∨ (2 : Int) < INT_MIN) = false := by decide
    have hdev : devolver "" (tok :: resto) = tok :: resto := by simp [devolver]
    rw [hac, hfl, hdev] at hl
    simp [mainPaso, hl]
  refine ⟨h1 cout, h2, ?_, ?_⟩
  · intro hf hin hs pasos opcion
    have hfl : decide (v > INT_MAX ∨ v < INT_MIN) = false := by
      simp only [decide_eq_false_iff_not]; omega
    rw [mainBucle, h2, h1, if_neg hf, hfl, hs]
    simp [devolver]
  · intro hout pasos opcion
    cases pasos with
    | zero => rfl
    | succ pasos =>
      have hf : ¬(0 ≤ v ∧ v ≤ 4) := by
        simp only [INT_MIN, INT_MAX] at hout; omega
      have hfl : decide (v > INT_MAX ∨ v < INT_MIN) = true := decide_eq_true hout
      rw [mainBucle, h2, h1, if_neg hf, hfl]
      simp only [ne_eq, show ¬((2 : Int) = 3) by decide, not_false_eq_true, if_true]
      exact mainBucle_falla pl fmtDouble _ rfl 2 (by decide) pasos b _

/-- The input `2 9 3` from the start of `main`: the filter 9 is turned down
once and the next token, 3, is read as the menu option that ends the
program (C13). -/
theorem mainVerBitacora_filtro_witness :
    analizarInt "9" = some (9, "") ∧
    main (Plataforma.mk (fun _ => (⟨0⟩, none)) 0 0 0 ⟨0⟩ 0) (fun _ => "") 3 ["2", "9", "3"] =
      some (⟨[]⟩, ⟨[], false⟩,
        ["=== BITACORA DE CAMPO ===\n"] ++ msgsMenu ++ msgsFiltros
          ++ [">> Esa categoria no existe.\n"] ++ msgsMenu ++ ["Saliendooo...\n"]) := by
  have h := (mainVerBitacora_filtro (Plataforma.mk (fun _ => (⟨0⟩, none)) 0 0 0 ⟨0⟩ 0)
    (fun _ => "") ⟨[]⟩ "9" 9 "" ["3"] ["=== BITACORA DE CAMPO ===\n"] (by decide)).2.2.1
    (by decide) (by decide) rfl 2 0
  refine ⟨by decide, ?_⟩
  rw [main, h]
  decide

/-- The input `2 4294967296 3`: the filter is outside the range of `int`, the
stream fails, and the menu loop of `main` does not end however many rounds it
is given; the token 3 is never read. -/
theorem main_filtro_fuera_de_int (pl : Plataforma) (fmtDouble : Double → String)
    (pasos : Nat) : main pl fmtDouble pasos ["2", "4294967296", "3"] = none := by
  have h2 : analizarInt "2" = some (2, "") := by decide
  have h42 : analizarInt "4294967296" = some (4294967296, "") := by decide
  cases pasos with
  | zero => rfl
  | succ pasos =>
    have hl2 := leerInt_token "2" 2 "" ["4294967296", "3"] 0 h2
    have hl := leerInt_token "4294967296" 4294967296 "" ["3"] pl.filtroInicial h42
    have e1 : acotar 2 = 2 := by decide
    have e2 : decide ((2 : Int) > INT_MAX ∨ (2 : Int) < INT_MIN) = false := by decide
    have e3 : devolver "" ["4294967296", "3"] = ["4294967296", "3"] := by decide
    have e4 : acotar 4294967296 = INT_MAX := by decide
    have e5 : decide ((4294967296 : Int) > INT_MAX ∨ (4294967296 : Int) < INT_MIN) = true := by
      decide
    have e6 : devolver "" ["3"] = ["3"] := by decide
    rw [e1, e2, e3] at hl2
    rw [e4, e5, e6] at hl
    have e7 : ¬(INT_MAX ≥ 0 ∧ INT_MAX ≤ 4) := by decide
    rw [main, mainBucle, mainPaso, hl2]
    simp only [show ¬((2 : Int) = 1) by decide, if_false, if_true, mainVerBitacora, hl,
      if_neg e7, ne_eq, show ¬((2 : Int) = 3) by decide, not_false_eq_true]
    exact mainBucle_falla pl fmtDouble _ rfl 2 (by decide) pasos _ _

/-! ### `registrar` -/

theorem leerTexto_token (tok : String) (resto : List String) (x : String) :
    leerTexto ⟨tok :: resto, false⟩ x = (tok, ⟨resto, false⟩) := by
  simp [leerTexto]

/-- One round of the selection loop of `registrar` on a token that writes an
integer outside 1..4: the prompts, the error message, and the next round. -/
theorem registrarSeleccion_rechaza (pasos : Nat) (tipo : Int) (tok : String) (v : Int)
    (sobra : String) (resto : List String) (cout : Cout)
    (htok : analizarInt tok = some (v, sobra)) (hv : v < 1 ∨ 4 < v) :
    registrarSeleccion (pasos + 1) tipo ⟨tok :: resto, false⟩ cout =
      registrarSeleccion pasos (acotar v)
        ⟨devolver sobra resto, decide (v > INT_MAX ∨ v < INT_MIN)⟩
        (cout ++ msgsSeleccion ++ [msgOpcionIncorrecta]) := by
  have hr := acotar_rango v 1 4 (by decide) (le_refl _)
  have h : acotar v < 1 ∨ acotar v > 4 := by
    by_contra hc
    have : 1 ≤ acotar v ∧ acotar v ≤ 4 := by omega
    have := hr.mp this
    omega
  rw [registrarSeleccion, leerInt_token tok v sobra resto tipo htok]
  simp only [if_pos h]

/-- One round of the selection loop of `registrar` on a token read whole as an
integer from 1 to 4: the prompts, and the selection is taken. -/
theorem registrarSeleccion_acepta (pasos : Nat) (tipo : Int) (tok : String) (t : Int)
    (resto : List String) (cout : Cout)
    (htok : analizarInt tok = some (t, "")) (ht : 1 ≤ t ∧ t ≤ 4) :
    registrarSeleccion (pasos + 1) tipo ⟨tok :: resto, false⟩ cout =
      some (t, ⟨resto, false⟩, cout ++ msgsSeleccion) := by
  have hin : INT_MIN ≤ t ∧ t ≤ INT_MAX := by
    simp only [INT_MIN, INT_MAX]; omega
  have hfl : decide (t > INT_MAX ∨ t < INT_MIN) = false := by
    simp only [decide_eq_false_iff_not]; omega
  have h : ¬(t < 1 ∨ t > 4) := by omega
  rw [registrarSeleccion, leerInt_token tok t "" resto tipo htok, acotar_eq t hin, hfl]
  simp only [if_neg h, devolver, if_true]

/-- The selection loop of `registrar` on rejected selections followed by an
accepted one: a round of prompts and an error message for each rejected
selection, then the prompts once more. -/
theorem registrarSeleccion_eq (rechazadas : List (String × Int)) (tok : String) (t : Int)
    (resto : List String)
    (hrech : ∀ e ∈ rechazadas, analizarInt e.1 = some (e.2, "") ∧
      (INT_MIN ≤ e.2 ∧ e.2 ≤ INT_MAX) ∧ (e.2 < 1 ∨ 4 < e.2))
    (htok : analizarInt tok = some (t, "")) (ht : 1 ≤ t ∧ t ≤ 4) :
    ∀ (pasos : Nat) (tipo : Int) (cout : Cout), rechazadas.length < pasos →
      registrarSeleccion pasos tipo ⟨rechazadas.map Prod.fst ++ tok :: resto, false⟩ cout =
        some (t, ⟨resto, false⟩,
          cout ++
            (List.replicate rechazadas.length (msgsSeleccion ++ [msgOpcionIncorrecta])).flatten
            ++ msgsSeleccion) := by
  induction rechazadas with
  | nil =>
    intro pasos tipo cout hp
    obtain ⟨n, rfl⟩ : ∃ n, pasos = n + 1 := ⟨pasos - 1, by simp at hp; omega⟩
    simpa using registrarSeleccion_acepta n tipo tok t resto cout htok ht
  | cons e es ih =>
    intro pasos tipo cout hp
    obtain ⟨n, rfl⟩ : ∃ n, pasos = n + 1 := ⟨pasos - 1, by simp at hp; omega⟩
    obtain ⟨h1, h2, h3⟩ := hrech e (List.mem_cons_self _ _)
    have hfl : decide (e.2 > INT_MAX ∨ e.2 < INT_MIN) = false := by
      simp only [decide_eq_false_iff_not]; omega
    have ih2 := ih (fun w hw => hrech w (List.mem_cons_of_mem _ hw)) n (acotar e.2)
      (cout ++ msgsSeleccion ++ [msgOpcionIncorrecta]) (by simp at hp; omega)
    rw [List.map_cons, List.cons_append,
      registrarSeleccion_rechaza n tipo e.1 e.2 "" _ cout h1 h3, hfl]
    simp only [devolver, if_true]
    rw [ih2]
    simp [List.replicate_succ]

theorem acotar_eq_uno (v : Int) : acotar v = 1 ↔ v = 1 := by
  have h := acotar_rango v 1 1 (by decide) (by decide)
  constructor
  · intro h1
    have := h.mp (by omega)
    omega
  · intro h1
    have := h.mpr (by omega)
    omega

/-- What `registrar` does once its selection loop has taken `tipo` with the
name and the climate next in the stream. -/
theorem registrar_tras_seleccion (pl : Plataforma) (pasos : Nat) (b : Bitacora) (cin : Cin)
    (cout cout1 : Cout) (tipo : Int) (nom clima : String) (resto : List String)
    (hsel : registrarSeleccion pasos 0 cin cout =
      some (tipo, ⟨nom :: clima :: resto, false⟩, cout1)) :
    registrar pl pasos b cin cout =
      (match registrarPlanta pl tipo nom clima ⟨resto, false⟩
          (cout1 ++ ["Nombre Comun: "] ++ ["Clima ideal: "]) with
       | (some p, cin4, cout4) => some ((agregar b p cout4).1, cin4, (agregar b p cout4).2)
       | (none, cin4, cout4) => some (b, cin4, cout4)) := by
  simp only [registrar, hsel, leerTexto_token]

/-- C14: in `registrar` the integer read for a `Hierba` (selection 1) or an
`Arbusto` (selection 3) becomes `true` exactly when it is 1. The record
appended holds `decide (m = 1)` for the value `m` that the extraction leaves
in the variable; for a token that writes the integer `v`, in the range of
`int` or not, that is `decide (v = 1)`: `true` for 1 and `false` for every
other integer. -/
theorem registrar_si_no (pl : Plataforma) (b : Bitacora) (nom clima : String)
    (resto : List String) (cout : Cout) (pasos : Nat) :
    (registrar pl (pasos + 1) b ⟨"1" :: nom :: clima :: resto, false⟩ cout =
        some (⟨b.coleccion ++
            [Hierba nom clima (decide ((leerInt ⟨resto, false⟩ pl.medInicial).1 = 1))]⟩,
          (leerInt ⟨resto, false⟩ pl.medInicial).2,
          cout ++ msgsSeleccion ++ ["Nombre Comun: ", "Clima ideal: ",
            "Es medicinal? (1:Si / 0:No): ", msgRegistrada]) ∧
      registrar pl (pasos + 1) b ⟨"3" :: nom :: clima :: resto, false⟩ cout =
        some (⟨b.coleccion ++
            [Arbusto nom clima (decide ((leerInt ⟨resto, false⟩ pl.espInicial).1 = 1))]⟩,
          (leerInt ⟨resto, false⟩ pl.espInicial).2,
          cout ++ msgsSeleccion ++ ["Nombre Comun: ", "Clima ideal: ",
            "Tiene espinas? (1:Si / 0:No): ", msgRegistrada])) ∧
    (∀ (tok : String) (v : Int) (sobra : String), analizarInt tok = some (v, sobra) →
      registrar pl (pasos + 1) b ⟨"1" :: nom :: clima :: tok :: resto, false⟩ cout =
        some (⟨b.coleccion ++ [Hierba nom clima (decide (v = 1))]⟩,
          ⟨devolver sobra resto, decide (v > INT_MAX ∨ v < INT_MIN)⟩,
          cout ++ msgsSeleccion ++ ["Nombre Comun: ", "Clima ideal: ",
            "Es medicinal? (1:Si / 0:No): ", msgRegistrada]) ∧
      registrar pl (pasos + 1) b ⟨"3" :: nom :: clima :: tok :: resto, false⟩ cout =
        some (⟨b.coleccion ++ [Arbusto nom clima (decide (v = 1))]⟩,
          ⟨devolver sobra resto, decide (v > INT_MAX ∨ v < INT_MIN)⟩,
          cout ++ msgsSeleccion ++ ["Nombre Comun: ", "Clima ideal: ",
            "Tiene espinas? (1:Si / 0:No): ", msgRegistrada])) ∧
    (∀ v : Int,
      registrar pl (pasos + 1) b ⟨"1" :: nom :: clima :: toString v :: resto, false⟩ cout =
        some (⟨b.coleccion ++ [Hierba nom clima (decide (v = 1))]⟩,
          ⟨resto, decide (v > INT_MAX ∨ v < INT_MIN)⟩,
          cout ++ msgsSeleccion ++ ["Nombre Comun: ", "Clima ideal: ",
            "Es medicinal? (1:Si / 0:No): ", msgRegistrada]) ∧
      registrar pl (pasos + 1) b ⟨"3" :: nom :: clima :: toString v :: resto, false⟩ cout =
        some (⟨b.coleccion ++ [Arbusto nom clima (decide (v = 1))]⟩,
          ⟨resto, decide (v > INT_MAX ∨ v < INT_MIN)⟩,
          cout ++ msgsSeleccion ++ ["Nombre Comun: ", "Clima ideal: ",
            "Tiene espinas? (1:Si / 0:No): ", msgRegistrada]) ∧
      (decide (v = 1) = true ↔ v = 1) ∧ (decide (v = 1) = false ↔ v ≠ 1)) := by
  have g : ∀ resto : List String,
      registrar pl (pasos + 1) b ⟨"1" :: nom :: clima :: resto, false⟩ cout =
        some (⟨b.coleccion ++
            [Hierba nom clima (decide ((leerInt ⟨resto, false⟩ pl.medInicial).1 = 1))]⟩,
          (leerInt ⟨resto, false⟩ pl.medInicial).2,
          cout ++ msgsSeleccion ++ ["Nombre Comun: ", "Clima ideal: ",
            "Es medicinal? (1:Si / 0:No): ", msgRegistrada]) ∧
      registrar pl (pasos + 1) b ⟨"3" :: nom :: clima :: resto, false⟩ cout =
        some (⟨b.coleccion ++
            [Arbusto nom clima (decide ((leerInt ⟨resto, false⟩ pl.espInicial).1 = 1))]⟩,
          (leerInt ⟨resto, false⟩ pl.espInicial).2,
          cout ++ msgsSeleccion ++ ["Nombre Comun: ", "Clima ideal: ",
            "Tiene espinas? (1:Si / 0:No): ", msgRegistrada]) := by
    intro resto
    have s1 := registrarSeleccion_acepta pasos 0 "1" 1 (nom :: clima :: resto) cout
      (by decide) (by decide)
    have s3 := registrarSeleccion_acepta pasos 0 "3" 3 (nom :: clima :: resto) cout
      (by decide) (by decide)
    constructor
    · rw [registrar_tras_seleccion pl (pasos + 1) b _ cout _ 1 nom clima resto s1]
      by_cases h : (leerInt ⟨resto, false⟩ pl.medInicial).1 = 1
      · simp [registrarPlanta, agregar, h]
      · simp [registrarPlanta, agregar, h]
    · rw [registrar_tras_seleccion pl (pasos + 1) b _ cout _ 3 nom clima resto s3]
      by_cases h : (leerInt ⟨resto, false⟩ pl.espInicial).1 = 1
      · simp [registrarPlanta, agregar, h]
      · simp [registrarPlanta, agregar, h]
  have a : ∀ (tok : String) (v : Int) (sobra : String), analizarInt tok = some (v, sobra) →
      registrar pl (pasos + 1) b ⟨"1" :: nom :: clima :: tok :: resto, false⟩ cout =
        some (⟨b.coleccion ++ [Hierba nom clima (decide (v = 1))]⟩,
          ⟨devolver sobra resto, decide (v > INT_MAX ∨ v < INT_MIN)⟩,
          cout ++ msgsSeleccion ++ ["Nombre Comun: ", "Clima ideal: ",
            "Es medicinal? (1:Si / 0:No): ", msgRegistrada]) ∧
      registrar pl (pasos + 1) b ⟨"3" :: nom :: clima :: tok :: resto, false⟩ cout =
        some (⟨b.coleccion ++ [Arbusto nom clima (decide (v = 1))]⟩,
          ⟨devolver sobra resto, decide (v > INT_MAX ∨ v < INT_MIN)⟩,
          cout ++ msgsSeleccion ++ ["Nombre Comun: ", "Clima ideal: ",
            "Tiene espinas? (1:Si / 0:No): ", msgRegistrada]) := by
    intro tok v sobra htok
    have hd : decide (acotar v = 1) = decide (v = 1) := by
      simp only [acotar_eq_uno]
    obtain ⟨g1, g3⟩ := g (tok :: resto)
    rw [leerInt_token tok v sobra resto _ htok] at g1 g3
    simp only [hd] at g1 g3
    exact ⟨g1, g3⟩
  refine ⟨g resto, a, ?_⟩
  intro v
  obtain ⟨a1, a3⟩ := a (toString v) v "" (analizarInt_toString v)
  have hdev : devolver "" resto = resto := by simp [devolver]
  rw [hdev] at a1 a3
  exact ⟨a1, a3, by simp, by simp⟩

/-- C15: `registrar` turns down every selection outside 1..4, writing the
error message and the prompts again and leaving the log alone, and for the
selection `t` in 1..4 that follows, with the two texts read as name and
climate, it appends exactly one record, whose `getTipoID()` is `t` and whose
name and climate are the two texts, whatever the stream holds for the extra
member. A selection outside the range of `int` is turned down as well; the
stream has then failed and `registrar` does not return. -/
theorem registrar_variante (pl : Plataforma) (b : Bitacora) (rechazadas : List (String × Int))
    (tok : String) (t : Int) (nom clima : String) (resto : List String) (cout : Cout)
    (pasos : Nat)
    (hrech : ∀ e ∈ rechazadas, analizarInt e.1 = some (e.2, "") ∧
      (INT_MIN ≤ e.2 ∧ e.2 ≤ INT_MAX) ∧ (e.2 < 1 ∨ 4 < e.2))
    (htok : analizarInt tok = some (t, "")) (ht : 1 ≤ t ∧ t ≤ 4)
    (hpasos : rechazadas.length < pasos) :
    registrarSeleccion pasos 0
        ⟨rechazadas.map Prod.fst ++ tok :: nom :: clima :: resto, false⟩ cout =
      some (t, ⟨nom :: clima :: resto, false⟩,
        cout ++
          (List.replicate rechazadas.length (msgsSeleccion ++ [msgOpcionIncorrecta])).flatten
          ++ msgsSeleccion) ∧
    (∃ (p : Planta) (pregunta : String) (cin4 : Cin),
      registrar pl pasos b
          ⟨rechazadas.map Prod.fst ++ tok :: nom :: clima :: resto, false⟩ cout =
        some (⟨b.coleccion ++ [p]⟩, cin4,
          cout ++
            (List.replicate rechazadas.length (msgsSeleccion ++ [msgOpcionIncorrecta])).flatten
            ++ msgsSeleccion ++ ["Nombre Comun: ", "Clima ideal: ", pregunta, msgRegistrada]) ∧
      p.getTipoID = t ∧ p.getNombre = nom ∧ p.climaIdeal = clima) ∧
    (∀ (tok2 : String) (v : Int) (sobra : String) (resto2 : List String) (n : Nat),
      analizarInt tok2 = some (v, sobra) → v > INT_MAX ∨ v < INT_MIN →
        registrar pl n b ⟨tok2 :: resto2, false⟩ cout = none) := by
  have hsel := registrarSeleccion_eq rechazadas tok t (nom :: clima :: resto) hrech htok ht
    pasos 0 cout hpasos
  refine ⟨hsel, ?_, ?_⟩
  · have hreg := registrar_tras_seleccion pl pasos b _ cout _ t nom clima resto hsel
    have ht4 : t = 1 ∨ t = 2 ∨ t = 3 ∨ t = 4 := by omega
    rcases ht4 with h | h | h | h
    · subst h
      refine ⟨Hierba nom clima (decide ((leerInt ⟨resto, false⟩ pl.medInicial).1 = 1)),
        "Es medicinal? (1:Si / 0:No): ", (leerInt ⟨resto, false⟩ pl.medInicial).2,
        ?_, rfl, rfl, rfl⟩
      rw [hreg]
      by_cases h1 : (leerInt ⟨resto, false⟩ pl.medInicial).1 = 1
      · simp [registrarPlanta, agregar, h1]
      · simp [registrarPlanta, agregar, h1]
    · subst h
      refine ⟨Mata nom clima (leerInt ⟨resto, false⟩ pl.tInicial).1, "Numero de Tallos: ",
        (leerInt ⟨resto, false⟩ pl.tInicial).2, ?_, rfl, rfl, rfl⟩
      rw [hreg]
      simp [registrarPlanta, agregar]
    · subst h
      refine ⟨Arbusto nom clima (decide ((leerInt ⟨resto, false⟩ pl.espInicial).1 = 1)),
        "Tiene espinas? (1:Si / 0:No): ", (leerInt ⟨resto, false⟩ pl.espInicial).2,
        ?_, rfl, rfl, rfl⟩
      rw [hreg]
      by_cases h1 : (leerInt ⟨resto, false⟩ pl.espInicial).1 = 1
      · simp [registrarPlanta, agregar, h1]
      · simp [registrarPlanta, agregar, h1]
    · subst h
      refine ⟨Arbol nom clima (leerDouble pl ⟨resto, false⟩ pl.altInicial).1, "Altura (mts): ",
        (leerDouble pl ⟨resto, false⟩ pl.altInicial).2, ?_, rfl, rfl, rfl⟩
      rw [hreg]
      simp [registrarPlanta, agregar]
  · intro tok2 v sobra resto2 n htok2 hv
    cases n with
    | zero => rfl
    | succ n =>
      have hrej : v < 1 ∨ 4 < v := by
        simp only [INT_MIN, INT_MAX] at hv; omega
      have hfl : decide (v > INT_MAX ∨ v < INT_MIN) = true := decide_eq_true hv
      have hac : acotar v < 1 ∨ acotar v > 4 := by
        have hr := acotar_rango v 1 4 (by decide) (le_refl _)
        by_contra hc
        have : 1 ≤ acotar v ∧ acotar v ≤ 4 := by omega
        have := hr.mp this
        omega
      have h1 := registrarSeleccion_rechaza n 0 tok2 v sobra resto2 cout htok2 hrej
      rw [hfl, registrarSeleccion_falla _ rfl n (acotar v) _ hac] at h1
      simp [registrar, h1]

/-- The selections 0, 7 and -2 turned down, then a `Mata` registered with
selection 2 on a log of one record (C15); and a `Hierba` registered although
the answer `abc` is no integer: 0 is stored, the record is appended with
`false`, and the stream has failed. -/
theorem registrar_variante_witness :
    registrar (Plataforma.mk (fun _ => (⟨0⟩, none)) 0 0 0 ⟨0⟩ 0) 4
        ⟨[Hierba "Mint" "Temperate" true]⟩
        ⟨["0", "7", "-2", "2", "Romero", "Dry", "5"], false⟩ [] =
      some (⟨[Hierba "Mint" "Temperate" true, Mata "Romero" "Dry" 5]⟩, ⟨[], false⟩,
        msgsSeleccion ++ [">> Opcion incorrecta\n"] ++ msgsSeleccion
          ++ [">> Opcion incorrecta\n"] ++ msgsSeleccion ++ [">> Opcion incorrecta\n"]
          ++ msgsSeleccion ++ ["Nombre Comun: ", "Clima ideal: ", "Numero de Tallos: ",
            "--- La planta se ha registrado :).\n"]) ∧
    (∃ p : Planta, p.getTipoID = 2 ∧ p.getNombre = "Romero" ∧ p.climaIdeal = "Dry") ∧
    registrar (Plataforma.mk (fun _ => (⟨0⟩, none)) 0 0 0 ⟨0⟩ 0) 1 ⟨[]⟩
        ⟨["1", "Mint", "Warm", "abc", "3"], false⟩ [] =
      some (⟨[Hierba "Mint" "Warm" false]⟩, ⟨["abc", "3"], true⟩,
        msgsSeleccion ++ ["Nombre Comun: ", "Clima ideal: ", "Es medicinal? (1:Si / 0:No): ",
          "--- La planta se ha registrado :).\n"]) := by
  obtain ⟨_, ⟨p, _, _, _, h1, h2, h3⟩, _⟩ :=
    registrar_variante (Plataforma.mk (fun _ => (⟨0⟩, none)) 0 0 0 ⟨0⟩ 0)
      ⟨[Hierba "Mint" "Temperate" true]⟩ [("0", 0), ("7", 7), ("-2", -2)] "2" 2 "Romero" "Dry"
      ["5"] [] 4 (by decide) (by decide) (by decide) (by decide)
  exact ⟨by decide, ⟨p, h1, h2, h3⟩, by decide⟩

/-! ## Relations between listings -/

/-- Every record line holds an opening square bracket. -/
theorem mostrarDetalles_corchete (fmtDouble : Double → String) (p : Planta) (i : Int) :
    '[' ∈ (p.mostrarDetalles fmtDouble i).data := by
  cases p <;> simp [mostrarDetalles, String.data_append]

/-- No record line is one of the four fixed messages of `mostrarFiltrado`:
none of these holds a square bracket. -/
theorem mostrarDetalles_no_fijo (fmtDouble : Double → String) (p : Planta) (i : Int) :
    p.mostrarDetalles fmtDouble i ∉ [msgVacia, msgEncabezado, msgSinResultados, msgPie] := by
  intro h
  have hc := mostrarDetalles_corchete fmtDouble p i
  simp only [List.mem_cons, List.mem_singleton, List.not_mem_nil, or_false] at h
  rcases h with h | h | h | h <;> rw [h] at hc <;> revert hc <;> decide

theorem lineasListado_no_fijo (fmtDouble : Double → String) (c : Int) (l : List Planta) :
    ∀ s ∈ lineasListado fmtDouble c l,
      s ∉ [msgVacia, msgEncabezado, msgSinResultados, msgPie] := by
  intro s hs
  simp only [lineasListado, List.mem_map] at hs
  obtain ⟨ip, _, rfl⟩ := hs
  exact mostrarDetalles_no_fijo fmtDouble ip.2 _

/-- The record lines read off the output of `mostrarFiltrado` are the lines of
the records that pass the test of the loop. -/
theorem lineasEmitidas_eq (fmtDouble : Double → String) (b : Bitacora) (c : Int) :
    lineasEmitidas fmtDouble b c = lineasListado fmtDouble c b.coleccion := by
  by_cases hv : b.coleccion = []
  · rw [lineasEmitidas, mostrarFiltrado_eq, if_pos hv, hv]
    simp [lineasListado]
  · rw [lineasEmitidas, mostrarFiltrado_lineasListado fmtDouble b c [] hv]
    have hkeep : (lineasListado fmtDouble c b.coleccion).filter
        (fun s => decide (s ∉ [msgVacia, msgEncabezado, msgSinResultados, msgPie]))
        = lineasListado fmtDouble c b.coleccion := by
      rw [List.filter_eq_self]
      intro s hs
      exact decide_eq_true (lineasListado_no_fijo fmtDouble c b.coleccion s hs)
    by_cases hl : lineasListado fmtDouble c b.coleccion = []
    · simp only [hl, if_true, List.nil_append]
      decide
    · simp only [if_neg hl, List.nil_append, List.filter_cons, List.filter_append, hkeep]
      have h1 : decide (msgEncabezado ∉ [msgVacia, msgEncabezado, msgSinResultados, msgPie])
          = false := by decide
      have h2 : decide (msgPie ∉ [msgVacia, msgEncabezado, msgSinResultados, msgPie])
          = false := by decide
      simp [h1, h2]

theorem lineasDesde_particion (fmtDouble : Double → String) (l : List Planta) (i : Nat) :
    (lineasDesde fmtDouble 1 i l ++ (lineasDesde fmtDouble 2 i l ++
      (lineasDesde fmtDouble 3 i l ++ lineasDesde fmtDouble 4 i l))).Perm
      (lineasDesde fmtDouble 0 i l) := by
  induction l generalizing i with
  | nil => simp [lineasDesde]
  | cons p resto ih =>
    rw [List.perm_iff_count]
    intro x
    have h := List.perm_iff_count.mp (ih (i + 1)) x
    simp only [List.count_append] at h
    cases p <;> simp [lineasDesde, getTipoID, List.count_append, List.count_cons] <;> omega

theorem lineasDesde_todas_length (fmtDouble : Double → String) (l : List Planta) (i : Nat) :
    (lineasDesde fmtDouble 0 i l).length = l.length := by
  induction l generalizing i with
  | nil => rfl
  | cons p resto ih => simp [lineasDesde, ih]

/-- C16: the four category listings split the full listing. The record lines
of `mostrarFiltrado(0)` are one per record, those of `mostrarFiltrado(c)` for
`c` from 1 to 4 the lines of the records with `getTipoID() = c`, rendered the
same way; so the record at position `i` has its line, with index `i + 1`, at
place `i` of the full listing and in the listing of its own category, an
entry of the full listing is kept by the filter of category `c` only for
`c = getTipoID()`, the four listings together hold the lines of the full
listing, each as often, in the order of the full listing, and their line
counts add up to the length of the log. -/
theorem listados_particion (fmtDouble : Double → String) (b : Bitacora) :
    lineasEmitidas fmtDouble b 0 = lineasDeTodas fmtDouble b.coleccion ∧
    (∀ c : Int, 1 ≤ c ∧ c ≤ 4 →
      lineasEmitidas fmtDouble b c = lineasDeCategoria fmtDouble c b.coleccion) ∧
    (∀ (i : Nat) (h : i < b.coleccion.length),
      (lineasEmitidas fmtDouble b 0)[i]? =
        some ((b.coleccion.get ⟨i, h⟩).mostrarDetalles fmtDouble ((i : Int) + 1)) ∧
      (b.coleccion.get ⟨i, h⟩).mostrarDetalles fmtDouble ((i : Int) + 1) ∈
        lineasEmitidas fmtDouble b (b.coleccion.get ⟨i, h⟩).getTipoID) ∧
    (∀ (c : Int) (e : Nat × Planta), e ∈ b.coleccion.enum →
      (e ∈ b.coleccion.enum.filter (fun ip => decide (ip.2.getTipoID = c)) ↔
        c = e.2.getTipoID)) ∧
    (lineasEmitidas fmtDouble b 1 ++ (lineasEmitidas fmtDouble b 2 ++
      (lineasEmitidas fmtDouble b 3 ++ lineasEmitidas fmtDouble b 4))).Perm
      (lineasEmitidas fmtDouble b 0) ∧
    (∀ c : Int, (lineasEmitidas fmtDouble b c).Sublist (lineasEmitidas fmtDouble b 0)) ∧
    (lineasEmitidas fmtDouble b 1).length + (lineasEmitidas fmtDouble b 2).length +
      (lineasEmitidas fmtDouble b 3).length + (lineasEmitidas fmtDouble b 4).length
      = b.coleccion.length := by
  have h0 : lineasEmitidas fmtDouble b 0 = lineasDeTodas fmtDouble b.coleccion := by
    rw [lineasEmitidas_eq, ← lineasDesde_eq_lineasListado, lineasDesde_eq_lineasDeTodas]
  have hcat : ∀ c : Int, 1 ≤ c ∧ c ≤ 4 →
      lineasEmitidas fmtDouble b c = lineasDeCategoria fmtDouble c b.coleccion := by
    intro c hc
    rw [lineasEmitidas_eq, ← lineasDesde_eq_lineasListado,
      lineasDesde_eq_lineasDeCategoria fmtDouble c (by omega)]
  have hperm := lineasDesde_particion fmtDouble b.coleccion 0
  simp only [lineasDesde_eq_lineasListado, ← lineasEmitidas_eq] at hperm
  refine ⟨h0, hcat, ?_, ?_, hperm, ?_, ?_⟩
  · intro i h
    constructor
    · rw [h0]
      simp [lineasDeTodas, List.getElem?_map, List.enum, List.getElem?_enumFrom, h]
    · have h14 : 1 ≤ (b.coleccion.get ⟨i, h⟩).getTipoID ∧
          (b.coleccion.get ⟨i, h⟩).getTipoID ≤ 4 := by
        cases (b.coleccion.get ⟨i, h⟩) <;> simp [getTipoID]
      rw [hcat _ h14, lineasDeCategoria, List.mem_map]
      refine ⟨(i, b.coleccion.get ⟨i, h⟩), ?_, rfl⟩
      rw [List.mem_filter]
      refine ⟨?_, by simp⟩
      rw [List.mk_mem_enum_iff_getElem?]
      simp [List.getElem?_eq_getElem h]
  · intro c e he
    rw [List.mem_filter]
    constructor
    · intro h
      have := h.2
      simp at this
      exact this.symm
    · intro h
      exact ⟨he, by simp [h]⟩
  · intro c
    rw [h0, lineasEmitidas_eq, lineasListado, lineasDeTodas]
    exact (List.filter_sublist _).map _
  · have hl := hperm.length_eq
    rw [h0] at hl
    simp only [List.length_append] at hl
    have hlen : (lineasDeTodas fmtDouble b.coleccion).length = b.coleccion.length := by
      simp [lineasDeTodas]
    omega

/-- C17: for every log, empty or not, after `agregar(r)` the record lines of
`mostrarFiltrado(c)` are those written before, unchanged, followed by the line
of `r` with index one more than the old length when `c` is 0 or the
`getTipoID()` of `r`, and those written before alone otherwise; they stand
between the header and the footer. -/
theorem indices_estables (fmtDouble : Double → String) (b : Bitacora) (r : Planta) (c : Int)
    (cout : Cout) :
    lineasEmitidas fmtDouble (agregar b r cout).1 c =
      lineasEmitidas fmtDouble b c ++
        (if c = 0 ∨ r.getTipoID = c then
          [r.mostrarDetalles fmtDouble ((b.coleccion.length : Int) + 1)]
         else []) ∧
    ∀ cout2 : Cout, (mostrarFiltrado fmtDouble (agregar b r cout).1 c cout2).2 =
      cout2 ++ msgEncabezado ::
        ((if lineasEmitidas fmtDouble (agregar b r cout).1 c = [] then [msgSinResultados]
          else lineasEmitidas fmtDouble (agregar b r cout).1 c) ++ [msgPie]) := by
  have hne2 : (agregar b r cout).1.coleccion ≠ [] := by simp [agregar]
  refine ⟨?_, ?_⟩
  · rw [lineasEmitidas_eq, lineasEmitidas_eq]
    simp only [agregar, lineasListado, List.enum_append, List.filter_append, List.map_append]
    congr 1
    by_cases hc : c = 0 ∨ r.getTipoID = c
    · simp [List.enumFrom_cons, List.filter_cons, hc]
    · simp [List.enumFrom_cons, List.filter_cons, hc]
  · intro cout2
    rw [mostrarFiltrado_lineasListado fmtDouble _ c cout2 hne2, lineasEmitidas_eq]

/-- A log of Mint and Oak to which Basil is appended, listed with the
categories 1 and 4 (C17). -/
theorem indices_estables_witness :
    lineasEmitidas (fun _ => "12.5")
        (agregar ⟨[Hierba "Mint" "Temperate" true,
          Arbol "Oak" "Temperate" ⟨0x4029000000000000⟩]⟩ (Hierba "Basil" "Warm" false) []).1 1 =
      ["1. [HIERBA] Mint [Clima: Temperate] (Medicinal)\n",
       "3. [HIERBA] Basil [Clima: Warm] (Decorativa)\n"] ∧
    lineasEmitidas (fun _ => "12.5")
        (agregar ⟨[Hierba "Mint" "Temperate" true,
          Arbol "Oak" "Temperate" ⟨0x4029000000000000⟩]⟩ (Hierba "Basil" "Warm" false) []).1 4 =
      ["2. [ARBOL] Oak [Clima: Temperate] (12.5 m)\n"] :=
  ⟨(indices_estables (fun _ => "12.5") ⟨[Hierba "Mint" "Temperate" true,
      Arbol "Oak" "Temperate" ⟨0x4029000000000000⟩]⟩ (Hierba "Basil" "Warm" false) 1 []).1.trans
      (by decide),
   (indices_estables (fun _ => "12.5") ⟨[Hierba "Mint" "Temperate" true,
      Arbol "Oak" "Temperate" ⟨0x4029000000000000⟩]⟩ (Hierba "Basil" "Warm" false) 4 []).1.trans
      (by decide)⟩

/-- C18: on a log that holds a record, for every integer category, what
`mostrarFiltrado` writes starts with the header and ends with the footer,
each written once, and between them stand the record lines when there is one
and the no-records message when there is none: that message is written
exactly when no record line is, and no record line is one of the fixed
messages. -/
theorem listado_estructura (fmtDouble : Double → String) (b : Bitacora) (c : Int)
    (hne : b.coleccion ≠ []) :
    (∀ cout : Cout, (mostrarFiltrado fmtDouble b c cout).2 =
      cout ++ (mostrarFiltrado fmtDouble b c []).2) ∧
    (mostrarFiltrado fmtDouble b c []).2 =
      msgEncabezado ::
        ((if lineasEmitidas fmtDouble b c = [] then [msgSinResultados]
          else lineasEmitidas fmtDouble b c) ++ [msgPie]) ∧
    (mostrarFiltrado fmtDouble b c []).2.head? = some msgEncabezado ∧
    (mostrarFiltrado fmtDouble b c []).2.getLast? = some msgPie ∧
    (mostrarFiltrado fmtDouble b c []).2.count msgEncabezado = 1 ∧
    (mostrarFiltrado fmtDouble b c []).2.count msgPie = 1 ∧
    (msgSinResultados ∈ (mostrarFiltrado fmtDouble b c []).2 ↔
      lineasEmitidas fmtDouble b c = []) ∧
    (∀ s ∈ lineasEmitidas fmtDouble b c,
      s ∉ [msgVacia, msgEncabezado, msgSinResultados, msgPie]) ∧
    msgVacia ∉ (mostrarFiltrado fmtDouble b c []).2 := by
  have hfix : ∀ s ∈ lineasEmitidas fmtDouble b c,
      s ∉ [msgVacia, msgEncabezado, msgSinResultados, msgPie] := by
    rw [lineasEmitidas_eq]
    exact lineasListado_no_fijo fmtDouble c b.coleccion
  have hno : ∀ m ∈ [msgVacia, msgEncabezado, msgSinResultados, msgPie],
      m ∉ lineasEmitidas fmtDouble b c := fun m hm h => hfix m h hm
  have hout : (mostrarFiltrado fmtDouble b c []).2 =
      msgEncabezado ::
        ((if lineasEmitidas fmtDouble b c = [] then [msgSinResultados]
          else lineasEmitidas fmtDouble b c) ++ [msgPie]) := by
    rw [mostrarFiltrado_lineasListado fmtDouble b c [] hne, lineasEmitidas_eq]
    simp
  have h1 : msgVacia ∉ lineasEmitidas fmtDouble b c := hno _ (by simp)
  have h2 : msgEncabezado ∉ lineasEmitidas fmtDouble b c := hno _ (by simp)
  have h3 : msgSinResultados ∉ lineasEmitidas fmtDouble b c := hno _ (by simp)
  have h4 : msgPie ∉ lineasEmitidas fmtDouble b c := hno _ (by simp)
  have d1 : msgSinResultados ≠ msgEncabezado := by decide
  have d2 : msgPie ≠ msgEncabezado := by decide
  have d3 : msgSinResultados ≠ msgPie := by decide
  have d4 : msgVacia ≠ msgEncabezado := by decide
  have d5 : msgVacia ≠ msgSinResultados := by decide
  have d6 : msgVacia ≠ msgPie := by decide
  refine ⟨?_, hout, ?_, ?_, ?_, ?_, ?_, hfix, ?_⟩
  · intro cout
    rw [mostrarFiltrado_lineasListado fmtDouble b c cout hne,
      mostrarFiltrado_lineasListado fmtDouble b c [] hne]
    simp
  · rw [hout]; rfl
  · rw [hout, ← List.cons_append]
    exact List.getLast?_concat _
  · rw [hout]
    by_cases hl : lineasEmitidas fmtDouble b c = []
    · simp [hl, List.count_cons, d1, d2]
    · simp [hl, List.count_cons, List.count_append, List.count_eq_zero.mpr h2, d2]
  · rw [hout]
    by_cases hl : lineasEmitidas fmtDouble b c = []
    · simp [hl, List.count_cons, d1, d2, d3, d2.symm]
    · simp [hl, List.count_cons, List.count_append, List.count_eq_zero.mpr h4, d2.symm]
  · rw [hout]
    by_cases hl : lineasEmitidas fmtDouble b c = []
    · simp [hl]
    · simp [hl, h3, d1, d3]
  · rw [hout]
    by_cases hl : lineasEmitidas fmtDouble b c = []
    · simp [hl, d4, d5, d6]
    · simp [hl, h1, d4, d6]

/-- The log Mint, Oak, Basil listed with category 1, where two records
match, and with category 2, where none does (C18). -/
theorem listado_estructura_witness :
    (mostrarFiltrado (fun _ => "12.5")
        ⟨[Hierba "Mint" "Temperate" true, Arbol "Oak" "Temperate" ⟨0x4029000000000000⟩,
          Hierba "Basil" "Warm" false]⟩ 1 []).2.count msgEncabezado = 1 ∧
    (msgSinResultados ∈ (mostrarFiltrado (fun _ => "12.5")
        ⟨[Hierba "Mint" "Temperate" true, Arbol "Oak" "Temperate" ⟨0x4029000000000000⟩,
          Hierba "Basil" "Warm" false]⟩ 2 []).2 ↔
      lineasEmitidas (fun _ => "12.5")
        ⟨[Hierba "Mint" "Temperate" true, Arbol "Oak" "Temperate" ⟨0x4029000000000000⟩,
          Hierba "Basil" "Warm" false]⟩ 2 = []) ∧
    lineasEmitidas (fun _ => "12.5")
        ⟨[Hierba "Mint" "Temperate" true, Arbol "Oak" "Temperate" ⟨0x4029000000000000⟩,
          Hierba "Basil" "Warm" false]⟩ 2 = [] :=
  ⟨(listado_estructura (fun _ => "12.5")
      ⟨[Hierba "Mint" "Temperate" true, Arbol "Oak" "Temperate" ⟨0x4029000000000000⟩,
        Hierba "Basil" "Warm" false]⟩ 1 (by decide)).2.2.2.2.1,
   (listado_estructura (fun _ => "12.5")
      ⟨[Hierba "Mint" "Temperate" true, Arbol "Oak" "Temperate" ⟨0x4029000000000000⟩,
        Hierba "Basil" "Warm" false]⟩ 2 (by decide)).2.2.2.2.2.2.1,
   by decide⟩

end BitacoraCampo
